import Mathlib

/-!
# combine-sheets.js

A shallow embedding of `.github/workflows/combine-sheets.js`: the script loads
the rows of two sheets (`CHEAT SHEET`, the primary table, and
`FINAL PROJECTIONS`, the secondary table), indexes the secondary rows by a
normalised `name|team` key, appends to every primary row the columns that only
the secondary sheet has, and writes the result as CSV text.

Modelling conventions.

* A cell is a `String`; a row is the list of its cells (`_rawData`); a sheet is
  its `headerValues` together with the rows returned by `getRows()`.
* `x || ''` on a cell that may be absent is `List.getD _ _ ""`: an absent cell
  and an empty cell both give the empty string.
* The lookup object `finalMap` is a function from keys to optional rows.  Every
  key the script uses contains the character `|`, which no property inherited
  from `Object.prototype` contains, so a lookup only ever sees what the loop
  stored.
* `for (let i = 1; i < xs.length; i++)` visits the elements of `xs.drop 1` in
  order.
* The run has three outcomes: the early `return` (nothing written), the
  `writeFileSync` call with its text, and the `catch` branch.  The `catch`
  branch is reached when a sheet is missing and when `getRows()` throws.
* `toUpperCase` follows the Unicode upper-case mapping, tabulated below for
  the code points outside ASCII.
* The script computes the key twice, once in each loop; `finalKey` and
  `cheatKey` are the two computations, and `normName`, `normTeam` and `joinKey`
  name their halves.
* `normalize` and `readCsvLine` are not code of the script: the first is the
  Row Normalizer as the specification words it, the second the standard CSV
  reader the specification refers to.
-/

namespace CombineSheets

/-! ## Strings -/

/-- `String.prototype.toLowerCase` on one character.  ASCII capitals are
mapped to their small letters; U+0130 and U+212A are the only other characters
whose lower-case form contains an ASCII letter.  Any other character is mapped
by JavaScript to characters outside ASCII (or to itself); the model leaves it
as it is, which the character filter that follows in the script deletes either
way. -/
def toLowerCaseChar (c : Char) : List Char :=
  if 65 ≤ c.toNat ∧ c.toNat ≤ 90 then [Char.ofNat (c.toNat + 32)]
  else if c.toNat = 0x130 then [Char.ofNat 105, Char.ofNat 0x307]
  else if c.toNat = 0x212A then [Char.ofNat 107]
  else [c]

/-- `s.toLowerCase()`. -/
def toLowerCase (s : String) : String :=
  ⟨s.data.flatMap toLowerCaseChar⟩

/-! ### The upper-case table

`String.prototype.toUpperCase` maps every code point by the Unicode upper-case
mapping: the simple mappings of `UnicodeData.txt`, overridden by the
unconditional mappings of `SpecialCasing.txt` (one code point may become
several, as U+00DF becomes `SS`).  The table below is that mapping outside
ASCII, at Unicode 14.0.  An entry `(n, codes)` says that the code point `n` is
upper-cased to the code points `codes`; a code point without an entry is left
as it is.  The entries are grouped in blocks of 64 code points: the block
numbered `b` holds the entries of the code points `64 * b` to `64 * b + 63`. -/

/-- Upper-case table, code points U+0080 to U+017F. -/
def upperBlocks0 : List (Nat × List (Nat × List Nat)) := [
  (2, [
    (0xB5, [0x39C])]),
  (3, [
    (0xDF, [0x53, 0x53]), (0xE0, [0xC0]), (0xE1, [0xC1]), (0xE2, [0xC2]), (0xE3, [0xC3]),
    (0xE4, [0xC4]), (0xE5, [0xC5]), (0xE6, [0xC6]), (0xE7, [0xC7]), (0xE8, [0xC8]),
    (0xE9, [0xC9]), (0xEA, [0xCA]), (0xEB, [0xCB]), (0xEC, [0xCC]), (0xED, [0xCD]),
    (0xEE, [0xCE]), (0xEF, [0xCF]), (0xF0, [0xD0]), (0xF1, [0xD1]), (0xF2, [0xD2]),
    (0xF3, [0xD3]), (0xF4, [0xD4]), (0xF5, [0xD5]), (0xF6, [0xD6]), (0xF8, [0xD8]),
    (0xF9, [0xD9]), (0xFA, [0xDA]), (0xFB, [0xDB]), (0xFC, [0xDC]), (0xFD, [0xDD]),
    (0xFE, [0xDE]), (0xFF, [0x178])]),
  (4, [
    (0x101, [0x100]), (0x103, [0x102]), (0x105, [0x104]), (0x107, [0x106]), (0x109, [0x108]),
    (0x10B, [0x10A]), (0x10D, [0x10C]), (0x10F, [0x10E]), (0x111, [0x110]), (0x113, [0x112]),
    (0x115, [0x114]), (0x117, [0x116]), (0x119, [0x118]), (0x11B, [0x11A]), (0x11D, [0x11C]),
    (0x11F, [0x11E]), (0x121, [0x120]), (0x123, [0x122]), (0x125, [0x124]), (0x127, [0x126]),
    (0x129, [0x128]), (0x12B, [0x12A]), (0x12D, [0x12C]), (0x12F, [0x12E]), (0x131, [0x49]),
    (0x133, [0x132]), (0x135, [0x134]), (0x137, [0x136]), (0x13A, [0x139]), (0x13C, [0x13B]),
    (0x13E, [0x13D])]),
  (5, [
    (0x140, [0x13F]), (0x142, [0x141]), (0x144, [0x143]), (0x146, [0x145]), (0x148, [0x147]),
    (0x149, [0x2BC, 0x4E]), (0x14B, [0x14A]), (0x14D, [0x14C]), (0x14F, [0x14E]),
    (0x151, [0x150]), (0x153, [0x152]), (0x155, [0x154]), (0x157, [0x156]), (0x159, [0x158]),
    (0x15B, [0x15A]), (0x15D, [0x15C]), (0x15F, [0x15E]), (0x161, [0x160]), (0x163, [0x162]),
    (0x165, [0x164]), (0x167, [0x166]), (0x169, [0x168]), (0x16B, [0x16A]), (0x16D, [0x16C]),
    (0x16F, [0x16E]), (0x171, [0x170]), (0x173, [0x172]), (0x175, [0x174]), (0x177, [0x176]),
    (0x17A, [0x179]), (0x17C, [0x17B]), (0x17E, [0x17D]), (0x17F, [0x53])])]

/-- Upper-case table, code points U+0180 to U+023F. -/
def upperBlocks1 : List (Nat × List (Nat × List Nat)) := [
  (6, [
    (0x180, [0x243]), (0x183, [0x182]), (0x185, [0x184]), (0x188, [0x187]), (0x18C, [0x18B]),
    (0x192, [0x191]), (0x195, [0x1F6]), (0x199, [0x198]), (0x19A, [0x23D]), (0x19E, [0x220]),
    (0x1A1, [0x1A0]), (0x1A3, [0x1A2]), (0x1A5, [0x1A4]), (0x1A8, [0x1A7]), (0x1AD, [0x1AC]),
    (0x1B0, [0x1AF]), (0x1B4, [0x1B3]), (0x1B6, [0x1B5]), (0x1B9, [0x1B8]), (0x1BD, [0x1BC]),
    (0x1BF, [0x1F7])]),
  (7, [
    (0x1C5, [0x1C4]), (0x1C6, [0x1C4]), (0x1C8, [0x1C7]), (0x1C9, [0x1C7]), (0x1CB, [0x1CA]),
    (0x1CC, [0x1CA]), (0x1CE, [0x1CD]), (0x1D0, [0x1CF]), (0x1D2, [0x1D1]), (0x1D4, [0x1D3]),
    (0x1D6, [0x1D5]), (0x1D8, [0x1D7]), (0x1DA, [0x1D9]), (0x1DC, [0x1DB]), (0x1DD, [0x18E]),
    (0x1DF, [0x1DE]), (0x1E1, [0x1E0]), (0x1E3, [0x1E2]), (0x1E5, [0x1E4]), (0x1E7, [0x1E6]),
    (0x1E9, [0x1E8]), (0x1EB, [0x1EA]), (0x1ED, [0x1EC]), (0x1EF, [0x1EE]),
    (0x1F0, [0x4A, 0x30C]), (0x1F2, [0x1F1]), (0x1F3, [0x1F1]), (0x1F5, [0x1F4]),
    (0x1F9, [0x1F8]), (0x1FB, [0x1FA]), (0x1FD, [0x1FC]), (0x1FF, [0x1FE])]),
  (8, [
    (0x201, [0x200]), (0x203, [0x202]), (0x205, [0x204]), (0x207, [0x206]), (0x209, [0x208]),
    (0x20B, [0x20A]), (0x20D, [0x20C]), (0x20F, [0x20E]), (0x211, [0x210]), (0x213, [0x212]),
    (0x215, [0x214]), (0x217, [0x216]), (0x219, [0x218]), (0x21B, [0x21A]), (0x21D, [0x21C]),
    (0x21F, [0x21E]), (0x223, [0x222]), (0x225, [0x224]), (0x227, [0x226]), (0x229, [0x228]),
    (0x22B, [0x22A]), (0x22D, [0x22C]), (0x22F, [0x22E]), (0x231, [0x230]), (0x233, [0x232]),
    (0x23C, [0x23B]), (0x23F, [0x2C7E])])]

/-- Upper-case table, code points U+0240 to U+03BF. -/
def upperBlocks2 : List (Nat × List (Nat × List Nat)) := [
  (9, [
    (0x240, [0x2C7F]), (0x242, [0x241]), (0x247, [0x246]), (0x249, [0x248]), (0x24B, [0x24A]),
    (0x24D, [0x24C]), (0x24F, [0x24E]), (0x250, [0x2C6F]), (0x251, [0x2C6D]), (0x252, [0x2C70]),
    (0x253, [0x181]), (0x254, [0x186]), (0x256, [0x189]), (0x257, [0x18A]), (0x259, [0x18F]),
    (0x25B, [0x190]), (0x25C, [0xA7AB]), (0x260, [0x193]), (0x261, [0xA7AC]), (0x263, [0x194]),
    (0x265, [0xA78D]), (0x266, [0xA7AA]), (0x268, [0x197]), (0x269, [0x196]), (0x26A, [0xA7AE]),
    (0x26B, [0x2C62]), (0x26C, [0xA7AD]), (0x26F, [0x19C]), (0x271, [0x2C6E]), (0x272, [0x19D]),
    (0x275, [0x19F]), (0x27D, [0x2C64])]),
  (10, [
    (0x280, [0x1A6]), (0x282, [0xA7C5]), (0x283, [0x1A9]), (0x287, [0xA7B1]), (0x288, [0x1AE]),
    (0x289, [0x244]), (0x28A, [0x1B1]), (0x28B, [0x1B2]), (0x28C, [0x245]), (0x292, [0x1B7]),
    (0x29D, [0xA7B2]), (0x29E, [0xA7B0])]),
  (13, [
    (0x345, [0x399]), (0x371, [0x370]), (0x373, [0x372]), (0x377, [0x376]), (0x37B, [0x3FD]),
    (0x37C, [0x3FE]), (0x37D, [0x3FF])]),
  (14, [
    (0x390, [0x399, 0x308, 0x301]), (0x3AC, [0x386]), (0x3AD, [0x388]), (0x3AE, [0x389]),
    (0x3AF, [0x38A]), (0x3B0, [0x3A5, 0x308, 0x301]), (0x3B1, [0x391]), (0x3B2, [0x392]),
    (0x3B3, [0x393]), (0x3B4, [0x394]), (0x3B5, [0x395]), (0x3B6, [0x396]), (0x3B7, [0x397]),
    (0x3B8, [0x398]), (0x3B9, [0x399]), (0x3BA, [0x39A]), (0x3BB, [0x39B]), (0x3BC, [0x39C]),
    (0x3BD, [0x39D]), (0x3BE, [0x39E]), (0x3BF, [0x39F])])]

/-- Upper-case table, code points U+03C0 to U+047F. -/
def upperBlocks3 : List (Nat × List (Nat × List Nat)) := [
  (15, [
    (0x3C0, [0x3A0]), (0x3C1, [0x3A1]), (0x3C2, [0x3A3]), (0x3C3, [0x3A3]), (0x3C4, [0x3A4]),
    (0x3C5, [0x3A5]), (0x3C6, [0x3A6]), (0x3C7, [0x3A7]), (0x3C8, [0x3A8]), (0x3C9, [0x3A9]),
    (0x3CA, [0x3AA]), (0x3CB, [0x3AB]), (0x3CC, [0x38C]), (0x3CD, [0x38E]), (0x3CE, [0x38F]),
    (0x3D0, [0x392]), (0x3D1, [0x398]), (0x3D5, [0x3A6]), (0x3D6, [0x3A0]), (0x3D7, [0x3CF]),
    (0x3D9, [0x3D8]), (0x3DB, [0x3DA]), (0x3DD, [0x3DC]), (0x3DF, [0x3DE]), (0x3E1, [0x3E0]),
    (0x3E3, [0x3E2]), (0x3E5, [0x3E4]), (0x3E7, [0x3E6]), (0x3E9, [0x3E8]), (0x3EB, [0x3EA]),
    (0x3ED, [0x3EC]), (0x3EF, [0x3EE]), (0x3F0, [0x39A]), (0x3F1, [0x3A1]), (0x3F2, [0x3F9]),
    (0x3F3, [0x37F]), (0x3F5, [0x395]), (0x3F8, [0x3F7]), (0x3FB, [0x3FA])]),
  (16, [
    (0x430, [0x410]), (0x431, [0x411]), (0x432, [0x412]), (0x433, [0x413]), (0x434, [0x414]),
    (0x435, [0x415]), (0x436, [0x416]), (0x437, [0x417]), (0x438, [0x418]), (0x439, [0x419]),
    (0x43A, [0x41A]), (0x43B, [0x41B]), (0x43C, [0x41C]), (0x43D, [0x41D]), (0x43E, [0x41E]),
    (0x43F, [0x41F])]),
  (17, [
    (0x440, [0x420]), (0x441, [0x421]), (0x442, [0x422]), (0x443, [0x423]), (0x444, [0x424]),
    (0x445, [0x425]), (0x446, [0x426]), (0x447, [0x427]), (0x448, [0x428]), (0x449, [0x429]),
    (0x44A, [0x42A]), (0x44B, [0x42B]), (0x44C, [0x42C]), (0x44D, [0x42D]), (0x44E, [0x42E]),
    (0x44F, [0x42F]), (0x450, [0x400]), (0x451, [0x401]), (0x452, [0x402]), (0x453, [0x403]),
    (0x454, [0x404]), (0x455, [0x405]), (0x456, [0x406]), (0x457, [0x407]), (0x458, [0x408]),
    (0x459, [0x409]), (0x45A, [0x40A]), (0x45B, [0x40B]), (0x45C, [0x40C]), (0x45D, [0x40D]),
    (0x45E, [0x40E]), (0x45F, [0x40F]), (0x461, [0x460]), (0x463, [0x462]), (0x465, [0x464]),
    (0x467, [0x466]), (0x469, [0x468]), (0x46B, [0x46A]), (0x46D, [0x46C]), (0x46F, [0x46E]),
    (0x471, [0x470]), (0x473, [0x472]), (0x475, [0x474]), (0x477, [0x476]), (0x479, [0x478]),
    (0x47B, [0x47A]), (0x47D, [0x47C]), (0x47F, [0x47E])])]

/-- Upper-case table, code points U+0480 to U+053F. -/
def upperBlocks4 : List (Nat × List (Nat × List Nat)) := [
  (18, [
    (0x481, [0x480]), (0x48B, [0x48A]), (0x48D, [0x48C]), (0x48F, [0x48E]), (0x491, [0x490]),
    (0x493, [0x492]), (0x495, [0x494]), (0x497, [0x496]), (0x499, [0x498]), (0x49B, [0x49A]),
    (0x49D, [0x49C]), (0x49F, [0x49E]), (0x4A1, [0x4A0]), (0x4A3, [0x4A2]), (0x4A5, [0x4A4]),
    (0x4A7, [0x4A6]), (0x4A9, [0x4A8]), (0x4AB, [0x4AA]), (0x4AD, [0x4AC]), (0x4AF, [0x4AE]),
    (0x4B1, [0x4B0]), (0x4B3, [0x4B2]), (0x4B5, [0x4B4]), (0x4B7, [0x4B6]), (0x4B9, [0x4B8]),
    (0x4BB, [0x4BA]), (0x4BD, [0x4BC]), (0x4BF, [0x4BE])]),
  (19, [
    (0x4C2, [0x4C1]), (0x4C4, [0x4C3]), (0x4C6, [0x4C5]), (0x4C8, [0x4C7]), (0x4CA, [0x4C9]),
    (0x4CC, [0x4CB]), (0x4CE, [0x4CD]), (0x4CF, [0x4C0]), (0x4D1, [0x4D0]), (0x4D3, [0x4D2]),
    (0x4D5, [0x4D4]), (0x4D7, [0x4D6]), (0x4D9, [0x4D8]), (0x4DB, [0x4DA]), (0x4DD, [0x4DC]),
    (0x4DF, [0x4DE]), (0x4E1, [0x4E0]), (0x4E3, [0x4E2]), (0x4E5, [0x4E4]), (0x4E7, [0x4E6]),
    (0x4E9, [0x4E8]), (0x4EB, [0x4EA]), (0x4ED, [0x4EC]), (0x4EF, [0x4EE]), (0x4F1, [0x4F0]),
    (0x4F3, [0x4F2]), (0x4F5, [0x4F4]), (0x4F7, [0x4F6]), (0x4F9, [0x4F8]), (0x4FB, [0x4FA]),
    (0x4FD, [0x4FC]), (0x4FF, [0x4FE])]),
  (20, [
    (0x501, [0x500]), (0x503, [0x502]), (0x505, [0x504]), (0x507, [0x506]), (0x509, [0x508]),
    (0x50B, [0x50A]), (0x50D, [0x50C]), (0x50F, [0x50E]), (0x511, [0x510]), (0x513, [0x512]),
    (0x515, [0x514]), (0x517, [0x516]), (0x519, [0x518]), (0x51B, [0x51A]), (0x51D, [0x51C]),
    (0x51F, [0x51E]), (0x521, [0x520]), (0x523, [0x522]), (0x525, [0x524]), (0x527, [0x526]),
    (0x529, [0x528]), (0x52B, [0x52A]), (0x52D, [0x52C]), (0x52F, [0x52E])])]

/-- Upper-case table, code points U+0540 to U+1DBF. -/
def upperBlocks5 : List (Nat × List (Nat × List Nat)) := [
  (21, [
    (0x561, [0x531]), (0x562, [0x532]), (0x563, [0x533]), (0x564, [0x534]), (0x565, [0x535]),
    (0x566, [0x536]), (0x567, [0x537]), (0x568, [0x538]), (0x569, [0x539]), (0x56A, [0x53A]),
    (0x56B, [0x53B]), (0x56C, [0x53C]), (0x56D, [0x53D]), (0x56E, [0x53E]), (0x56F, [0x53F]),
    (0x570, [0x540]), (0x571, [0x541]), (0x572, [0x542]), (0x573, [0x543]), (0x574, [0x544]),
    (0x575, [0x545]), (0x576, [0x546]), (0x577, [0x547]), (0x578, [0x548]), (0x579, [0x549]),
    (0x57A, [0x54A]), (0x57B, [0x54B]), (0x57C, [0x54C]), (0x57D, [0x54D]), (0x57E, [0x54E]),
    (0x57F, [0x54F])]),
  (22, [
    (0x580, [0x550]), (0x581, [0x551]), (0x582, [0x552]), (0x583, [0x553]), (0x584, [0x554]),
    (0x585, [0x555]), (0x586, [0x556]), (0x587, [0x535, 0x552])]),
  (67, [
    (0x10D0, [0x1C90]), (0x10D1, [0x1C91]), (0x10D2, [0x1C92]), (0x10D3, [0x1C93]),
    (0x10D4, [0x1C94]), (0x10D5, [0x1C95]), (0x10D6, [0x1C96]), (0x10D7, [0x1C97]),
    (0x10D8, [0x1C98]), (0x10D9, [0x1C99]), (0x10DA, [0x1C9A]), (0x10DB, [0x1C9B]),
    (0x10DC, [0x1C9C]), (0x10DD, [0x1C9D]), (0x10DE, [0x1C9E]), (0x10DF, [0x1C9F]),
    (0x10E0, [0x1CA0]), (0x10E1, [0x1CA1]), (0x10E2, [0x1CA2]), (0x10E3, [0x1CA3]),
    (0x10E4, [0x1CA4]), (0x10E5, [0x1CA5]), (0x10E6, [0x1CA6]), (0x10E7, [0x1CA7]),
    (0x10E8, [0x1CA8]), (0x10E9, [0x1CA9]), (0x10EA, [0x1CAA]), (0x10EB, [0x1CAB]),
    (0x10EC, [0x1CAC]), (0x10ED, [0x1CAD]), (0x10EE, [0x1CAE]), (0x10EF, [0x1CAF]),
    (0x10F0, [0x1CB0]), (0x10F1, [0x1CB1]), (0x10F2, [0x1CB2]), (0x10F3, [0x1CB3]),
    (0x10F4, [0x1CB4]), (0x10F5, [0x1CB5]), (0x10F6, [0x1CB6]), (0x10F7, [0x1CB7]),
    (0x10F8, [0x1CB8]), (0x10F9, [0x1CB9]), (0x10FA, [0x1CBA]), (0x10FD, [0x1CBD]),
    (0x10FE, [0x1CBE]), (0x10FF, [0x1CBF])]),
  (79, [
    (0x13F8, [0x13F0]), (0x13F9, [0x13F1]), (0x13FA, [0x13F2]), (0x13FB, [0x13F3]),
    (0x13FC, [0x13F4]), (0x13FD, [0x13F5])]),
  (114, [
    (0x1C80, [0x412]), (0x1C81, [0x414]), (0x1C82, [0x41E]), (0x1C83, [0x421]), (0x1C84, [0x422]),
    (0x1C85, [0x422]), (0x1C86, [0x42A]), (0x1C87, [0x462]), (0x1C88, [0xA64A])]),
  (117, [
    (0x1D79, [0xA77D]), (0x1D7D, [0x2C63])]),
  (118, [
    (0x1D8E, [0xA7C6])])]

/-- Upper-case table, code points U+1E00 to U+1EBF. -/
def upperBlocks6 : List (Nat × List (Nat × List Nat)) := [
  (120, [
    (0x1E01, [0x1E00]), (0x1E03, [0x1E02]), (0x1E05, [0x1E04]), (0x1E07, [0x1E06]),
    (0x1E09, [0x1E08]), (0x1E0B, [0x1E0A]), (0x1E0D, [0x1E0C]), (0x1E0F, [0x1E0E]),
    (0x1E11, [0x1E10]), (0x1E13, [0x1E12]), (0x1E15, [0x1E14]), (0x1E17, [0x1E16]),
    (0x1E19, [0x1E18]), (0x1E1B, [0x1E1A]), (0x1E1D, [0x1E1C]), (0x1E1F, [0x1E1E]),
    (0x1E21, [0x1E20]), (0x1E23, [0x1E22]), (0x1E25, [0x1E24]), (0x1E27, [0x1E26]),
    (0x1E29, [0x1E28]), (0x1E2B, [0x1E2A]), (0x1E2D, [0x1E2C]), (0x1E2F, [0x1E2E]),
    (0x1E31, [0x1E30]), (0x1E33, [0x1E32]), (0x1E35, [0x1E34]), (0x1E37, [0x1E36]),
    (0x1E39, [0x1E38]), (0x1E3B, [0x1E3A]), (0x1E3D, [0x1E3C]), (0x1E3F, [0x1E3E])]),
  (121, [
    (0x1E41, [0x1E40]), (0x1E43, [0x1E42]), (0x1E45, [0x1E44]), (0x1E47, [0x1E46]),
    (0x1E49, [0x1E48]), (0x1E4B, [0x1E4A]), (0x1E4D, [0x1E4C]), (0x1E4F, [0x1E4E]),
    (0x1E51, [0x1E50]), (0x1E53, [0x1E52]), (0x1E55, [0x1E54]), (0x1E57, [0x1E56]),
    (0x1E59, [0x1E58]), (0x1E5B, [0x1E5A]), (0x1E5D, [0x1E5C]), (0x1E5F, [0x1E5E]),
    (0x1E61, [0x1E60]), (0x1E63, [0x1E62]), (0x1E65, [0x1E64]), (0x1E67, [0x1E66]),
    (0x1E69, [0x1E68]), (0x1E6B, [0x1E6A]), (0x1E6D, [0x1E6C]), (0x1E6F, [0x1E6E]),
    (0x1E71, [0x1E70]), (0x1E73, [0x1E72]), (0x1E75, [0x1E74]), (0x1E77, [0x1E76]),
    (0x1E79, [0x1E78]), (0x1E7B, [0x1E7A]), (0x1E7D, [0x1E7C]), (0x1E7F, [0x1E7E])]),
  (122, [
    (0x1E81, [0x1E80]), (0x1E83, [0x1E82]), (0x1E85, [0x1E84]), (0x1E87, [0x1E86]),
    (0x1E89, [0x1E88]), (0x1E8B, [0x1E8A]), (0x1E8D, [0x1E8C]), (0x1E8F, [0x1E8E]),
    (0x1E91, [0x1E90]), (0x1E93, [0x1E92]), (0x1E95, [0x1E94]), (0x1E96, [0x48, 0x331]),
    (0x1E97, [0x54, 0x308]), (0x1E98, [0x57, 0x30A]), (0x1E99, [0x59, 0x30A]),
    (0x1E9A, [0x41, 0x2BE]), (0x1E9B, [0x1E60]), (0x1EA1, [0x1EA0]), (0x1EA3, [0x1EA2]),
    (0x1EA5, [0x1EA4]), (0x1EA7, [0x1EA6]), (0x1EA9, [0x1EA8]), (0x1EAB, [0x1EAA]),
    (0x1EAD, [0x1EAC]), (0x1EAF, [0x1EAE]), (0x1EB1, [0x1EB0]), (0x1EB3, [0x1EB2]),
    (0x1EB5, [0x1EB4]), (0x1EB7, [0x1EB6]), (0x1EB9, [0x1EB8]), (0x1EBB, [0x1EBA]),
    (0x1EBD, [0x1EBC]), (0x1EBF, [0x1EBE])])]

/-- Upper-case table, code points U+1EC0 to U+1F7F. -/
def upperBlocks7 : List (Nat × List (Nat × List Nat)) := [
  (123, [
    (0x1EC1, [0x1EC0]), (0x1EC3, [0x1EC2]), (0x1EC5, [0x1EC4]), (0x1EC7, [0x1EC6]),
    (0x1EC9, [0x1EC8]), (0x1ECB, [0x1ECA]), (0x1ECD, [0x1ECC]), (0x1ECF, [0x1ECE]),
    (0x1ED1, [0x1ED0]), (0x1ED3, [0x1ED2]), (0x1ED5, [0x1ED4]), (0x1ED7, [0x1ED6]),
    (0x1ED9, [0x1ED8]), (0x1EDB, [0x1EDA]), (0x1EDD, [0x1EDC]), (0x1EDF, [0x1EDE]),
    (0x1EE1, [0x1EE0]), (0x1EE3, [0x1EE2]), (0x1EE5, [0x1EE4]), (0x1EE7, [0x1EE6]),
    (0x1EE9, [0x1EE8]), (0x1EEB, [0x1EEA]), (0x1EED, [0x1EEC]), (0x1EEF, [0x1EEE]),
    (0x1EF1, [0x1EF0]), (0x1EF3, [0x1EF2]), (0x1EF5, [0x1EF4]), (0x1EF7, [0x1EF6]),
    (0x1EF9, [0x1EF8]), (0x1EFB, [0x1EFA]), (0x1EFD, [0x1EFC]), (0x1EFF, [0x1EFE])]),
  (124, [
    (0x1F00, [0x1F08]), (0x1F01, [0x1F09]), (0x1F02, [0x1F0A]), (0x1F03, [0x1F0B]),
    (0x1F04, [0x1F0C]), (0x1F05, [0x1F0D]), (0x1F06, [0x1F0E]), (0x1F07, [0x1F0F]),
    (0x1F10, [0x1F18]), (0x1F11, [0x1F19]), (0x1F12, [0x1F1A]), (0x1F13, [0x1F1B]),
    (0x1F14, [0x1F1C]), (0x1F15, [0x1F1D]), (0x1F20, [0x1F28]), (0x1F21, [0x1F29]),
    (0x1F22, [0x1F2A]), (0x1F23, [0x1F2B]), (0x1F24, [0x1F2C]), (0x1F25, [0x1F2D]),
    (0x1F26, [0x1F2E]), (0x1F27, [0x1F2F]), (0x1F30, [0x1F38]), (0x1F31, [0x1F39]),
    (0x1F32, [0x1F3A]), (0x1F33, [0x1F3B]), (0x1F34, [0x1F3C]), (0x1F35, [0x1F3D]),
    (0x1F36, [0x1F3E]), (0x1F37, [0x1F3F])]),
  (125, [
    (0x1F40, [0x1F48]), (0x1F41, [0x1F49]), (0x1F42, [0x1F4A]), (0x1F43, [0x1F4B]),
    (0x1F44, [0x1F4C]), (0x1F45, [0x1F4D]), (0x1F50, [0x3A5, 0x313]), (0x1F51, [0x1F59]),
    (0x1F52, [0x3A5, 0x313, 0x300]), (0x1F53, [0x1F5B]), (0x1F54, [0x3A5, 0x313, 0x301]),
    (0x1F55, [0x1F5D]), (0x1F56, [0x3A5, 0x313, 0x342]), (0x1F57, [0x1F5F]), (0x1F60, [0x1F68]),
    (0x1F61, [0x1F69]), (0x1F62, [0x1F6A]), (0x1F63, [0x1F6B]), (0x1F64, [0x1F6C]),
    (0x1F65, [0x1F6D]), (0x1F66, [0x1F6E]), (0x1F67, [0x1F6F]), (0x1F70, [0x1FBA]),
    (0x1F71, [0x1FBB]), (0x1F72, [0x1FC8]), (0x1F73, [0x1FC9]), (0x1F74, [0x1FCA]),
    (0x1F75, [0x1FCB]), (0x1F76, [0x1FDA]), (0x1F77, [0x1FDB]), (0x1F78, [0x1FF8]),
    (0x1F79, [0x1FF9]), (0x1F7A, [0x1FEA]), (0x1F7B, [0x1FEB]), (0x1F7C, [0x1FFA]),
    (0x1F7D, [0x1FFB])])]

/-- Upper-case table, code points U+1F80 to U+21BF. -/
def upperBlocks8 : List (Nat × List (Nat × List Nat)) := [
  (126, [
    (0x1F80, [0x1F08, 0x399]), (0x1F81, [0x1F09, 0x399]), (0x1F82, [0x1F0A, 0x399]),
    (0x1F83, [0x1F0B, 0x399]), (0x1F84, [0x1F0C, 0x399]), (0x1F85, [0x1F0D, 0x399]),
    (0x1F86, [0x1F0E, 0x399]), (0x1F87, [0x1F0F, 0x399]), (0x1F88, [0x1F08, 0x399]),
    (0x1F89, [0x1F09, 0x399]), (0x1F8A, [0x1F0A, 0x399]), (0x1F8B, [0x1F0B, 0x399]),
    (0x1F8C, [0x1F0C, 0x399]), (0x1F8D, [0x1F0D, 0x399]), (0x1F8E, [0x1F0E, 0x399]),
    (0x1F8F, [0x1F0F, 0x399]), (0x1F90, [0x1F28, 0x399]), (0x1F91, [0x1F29, 0x399]),
    (0x1F92, [0x1F2A, 0x399]), (0x1F93, [0x1F2B, 0x399]), (0x1F94, [0x1F2C, 0x399]),
    (0x1F95, [0x1F2D, 0x399]), (0x1F96, [0x1F2E, 0x399]), (0x1F97, [0x1F2F, 0x399]),
    (0x1F98, [0x1F28, 0x399]), (0x1F99, [0x1F29, 0x399]), (0x1F9A, [0x1F2A, 0x399]),
    (0x1F9B, [0x1F2B, 0x399]), (0x1F9C, [0x1F2C, 0x399]), (0x1F9D, [0x1F2D, 0x399]),
    (0x1F9E, [0x1F2E, 0x399]), (0x1F9F, [0x1F2F, 0x399]), (0x1FA0, [0x1F68, 0x399]),
    (0x1FA1, [0x1F69, 0x399]), (0x1FA2, [0x1F6A, 0x399]), (0x1FA3, [0x1F6B, 0x399]),
    (0x1FA4, [0x1F6C, 0x399]), (0x1FA5, [0x1F6D, 0x399]), (0x1FA6, [0x1F6E, 0x399]),
    (0x1FA7, [0x1F6F, 0x399]), (0x1FA8, [0x1F68, 0x399]), (0x1FA9, [0x1F69, 0x399]),
    (0x1FAA, [0x1F6A, 0x399]), (0x1FAB, [0x1F6B, 0x399]), (0x1FAC, [0x1F6C, 0x399]),
    (0x1FAD, [0x1F6D, 0x399]), (0x1FAE, [0x1F6E, 0x399]), (0x1FAF, [0x1F6F, 0x399]),
    (0x1FB0, [0x1FB8]), (0x1FB1, [0x1FB9]), (0x1FB2, [0x1FBA, 0x399]), (0x1FB3, [0x391, 0x399]),
    (0x1FB4, [0x386, 0x399]), (0x1FB6, [0x391, 0x342]), (0x1FB7, [0x391, 0x342, 0x399]),
    (0x1FBC, [0x391, 0x399]), (0x1FBE, [0x399])]),
  (127, [
    (0x1FC2, [0x1FCA, 0x399]), (0x1FC3, [0x397, 0x399]), (0x1FC4, [0x389, 0x399]),
    (0x1FC6, [0x397, 0x342]), (0x1FC7, [0x397, 0x342, 0x399]), (0x1FCC, [0x397, 0x399]),
    (0x1FD0, [0x1FD8]), (0x1FD1, [0x1FD9]), (0x1FD2, [0x399, 0x308, 0x300]),
    (0x1FD3, [0x399, 0x308, 0x301]), (0x1FD6, [0x399, 0x342]), (0x1FD7, [0x399, 0x308, 0x342]),
    (0x1FE0, [0x1FE8]), (0x1FE1, [0x1FE9]), (0x1FE2, [0x3A5, 0x308, 0x300]),
    (0x1FE3, [0x3A5, 0x308, 0x301]), (0x1FE4, [0x3A1, 0x313]), (0x1FE5, [0x1FEC]),
    (0x1FE6, [0x3A5, 0x342]), (0x1FE7, [0x3A5, 0x308, 0x342]), (0x1FF2, [0x1FFA, 0x399]),
    (0x1FF3, [0x3A9, 0x399]), (0x1FF4, [0x38F, 0x399]), (0x1FF6, [0x3A9, 0x342]),
    (0x1FF7, [0x3A9, 0x342, 0x399]), (0x1FFC, [0x3A9, 0x399])]),
  (133, [
    (0x214E, [0x2132]), (0x2170, [0x2160]), (0x2171, [0x2161]), (0x2172, [0x2162]),
    (0x2173, [0x2163]), (0x2174, [0x2164]), (0x2175, [0x2165]), (0x2176, [0x2166]),
    (0x2177, [0x2167]), (0x2178, [0x2168]), (0x2179, [0x2169]), (0x217A, [0x216A]),
    (0x217B, [0x216B]), (0x217C, [0x216C]), (0x217D, [0x216D]), (0x217E, [0x216E]),
    (0x217F, [0x216F])]),
  (134, [
    (0x2184, [0x2183])])]

/-- Upper-case table, code points U+24C0 to U+2C7F. -/
def upperBlocks9 : List (Nat × List (Nat × List Nat)) := [
  (147, [
    (0x24D0, [0x24B6]), (0x24D1, [0x24B7]), (0x24D2, [0x24B8]), (0x24D3, [0x24B9]),
    (0x24D4, [0x24BA]), (0x24D5, [0x24BB]), (0x24D6, [0x24BC]), (0x24D7, [0x24BD]),
    (0x24D8, [0x24BE]), (0x24D9, [0x24BF]), (0x24DA, [0x24C0]), (0x24DB, [0x24C1]),
    (0x24DC, [0x24C2]), (0x24DD, [0x24C3]), (0x24DE, [0x24C4]), (0x24DF, [0x24C5]),
    (0x24E0, [0x24C6]), (0x24E1, [0x24C7]), (0x24E2, [0x24C8]), (0x24E3, [0x24C9]),
    (0x24E4, [0x24CA]), (0x24E5, [0x24CB]), (0x24E6, [0x24CC]), (0x24E7, [0x24CD]),
    (0x24E8, [0x24CE]), (0x24E9, [0x24CF])]),
  (176, [
    (0x2C30, [0x2C00]), (0x2C31, [0x2C01]), (0x2C32, [0x2C02]), (0x2C33, [0x2C03]),
    (0x2C34, [0x2C04]), (0x2C35, [0x2C05]), (0x2C36, [0x2C06]), (0x2C37, [0x2C07]),
    (0x2C38, [0x2C08]), (0x2C39, [0x2C09]), (0x2C3A, [0x2C0A]), (0x2C3B, [0x2C0B]),
    (0x2C3C, [0x2C0C]), (0x2C3D, [0x2C0D]), (0x2C3E, [0x2C0E]), (0x2C3F, [0x2C0F])]),
  (177, [
    (0x2C40, [0x2C10]), (0x2C41, [0x2C11]), (0x2C42, [0x2C12]), (0x2C43, [0x2C13]),
    (0x2C44, [0x2C14]), (0x2C45, [0x2C15]), (0x2C46, [0x2C16]), (0x2C47, [0x2C17]),
    (0x2C48, [0x2C18]), (0x2C49, [0x2C19]), (0x2C4A, [0x2C1A]), (0x2C4B, [0x2C1B]),
    (0x2C4C, [0x2C1C]), (0x2C4D, [0x2C1D]), (0x2C4E, [0x2C1E]), (0x2C4F, [0x2C1F]),
    (0x2C50, [0x2C20]), (0x2C51, [0x2C21]), (0x2C52, [0x2C22]), (0x2C53, [0x2C23]),
    (0x2C54, [0x2C24]), (0x2C55, [0x2C25]), (0x2C56, [0x2C26]), (0x2C57, [0x2C27]),
    (0x2C58, [0x2C28]), (0x2C59, [0x2C29]), (0x2C5A, [0x2C2A]), (0x2C5B, [0x2C2B]),
    (0x2C5C, [0x2C2C]), (0x2C5D, [0x2C2D]), (0x2C5E, [0x2C2E]), (0x2C5F, [0x2C2F]),
    (0x2C61, [0x2C60]), (0x2C65, [0x23A]), (0x2C66, [0x23E]), (0x2C68, [0x2C67]),
    (0x2C6A, [0x2C69]), (0x2C6C, [0x2C6B]), (0x2C73, [0x2C72]), (0x2C76, [0x2C75])])]

/-- Upper-case table, code points U+2C80 to U+2D3F. -/
def upperBlocks10 : List (Nat × List (Nat × List Nat)) := [
  (178, [
    (0x2C81, [0x2C80]), (0x2C83, [0x2C82]), (0x2C85, [0x2C84]), (0x2C87, [0x2C86]),
    (0x2C89, [0x2C88]), (0x2C8B, [0x2C8A]), (0x2C8D, [0x2C8C]), (0x2C8F, [0x2C8E]),
    (0x2C91, [0x2C90]), (0x2C93, [0x2C92]), (0x2C95, [0x2C94]), (0x2C97, [0x2C96]),
    (0x2C99, [0x2C98]), (0x2C9B, [0x2C9A]), (0x2C9D, [0x2C9C]), (0x2C9F, [0x2C9E]),
    (0x2CA1, [0x2CA0]), (0x2CA3, [0x2CA2]), (0x2CA5, [0x2CA4]), (0x2CA7, [0x2CA6]),
    (0x2CA9, [0x2CA8]), (0x2CAB, [0x2CAA]), (0x2CAD, [0x2CAC]), (0x2CAF, [0x2CAE]),
    (0x2CB1, [0x2CB0]), (0x2CB3, [0x2CB2]), (0x2CB5, [0x2CB4]), (0x2CB7, [0x2CB6]),
    (0x2CB9, [0x2CB8]), (0x2CBB, [0x2CBA]), (0x2CBD, [0x2CBC]), (0x2CBF, [0x2CBE])]),
  (179, [
    (0x2CC1, [0x2CC0]), (0x2CC3, [0x2CC2]), (0x2CC5, [0x2CC4]), (0x2CC7, [0x2CC6]),
    (0x2CC9, [0x2CC8]), (0x2CCB, [0x2CCA]), (0x2CCD, [0x2CCC]), (0x2CCF, [0x2CCE]),
    (0x2CD1, [0x2CD0]), (0x2CD3, [0x2CD2]), (0x2CD5, [0x2CD4]), (0x2CD7, [0x2CD6]),
    (0x2CD9, [0x2CD8]), (0x2CDB, [0x2CDA]), (0x2CDD, [0x2CDC]), (0x2CDF, [0x2CDE]),
    (0x2CE1, [0x2CE0]), (0x2CE3, [0x2CE2]), (0x2CEC, [0x2CEB]), (0x2CEE, [0x2CED]),
    (0x2CF3, [0x2CF2])]),
  (180, [
    (0x2D00, [0x10A0]), (0x2D01, [0x10A1]), (0x2D02, [0x10A2]), (0x2D03, [0x10A3]),
    (0x2D04, [0x10A4]), (0x2D05, [0x10A5]), (0x2D06, [0x10A6]), (0x2D07, [0x10A7]),
    (0x2D08, [0x10A8]), (0x2D09, [0x10A9]), (0x2D0A, [0x10AA]), (0x2D0B, [0x10AB]),
    (0x2D0C, [0x10AC]), (0x2D0D, [0x10AD]), (0x2D0E, [0x10AE]), (0x2D0F, [0x10AF]),
    (0x2D10, [0x10B0]), (0x2D11, [0x10B1]), (0x2D12, [0x10B2]), (0x2D13, [0x10B3]),
    (0x2D14, [0x10B4]), (0x2D15, [0x10B5]), (0x2D16, [0x10B6]), (0x2D17, [0x10B7]),
    (0x2D18, [0x10B8]), (0x2D19, [0x10B9]), (0x2D1A, [0x10BA]), (0x2D1B, [0x10BB]),
    (0x2D1C, [0x10BC]), (0x2D1D, [0x10BD]), (0x2D1E, [0x10BE]), (0x2D1F, [0x10BF]),
    (0x2D20, [0x10C0]), (0x2D21, [0x10C1]), (0x2D22, [0x10C2]), (0x2D23, [0x10C3]),
    (0x2D24, [0x10C4]), (0x2D25, [0x10C5]), (0x2D27, [0x10C7]), (0x2D2D, [0x10CD])])]

/-- Upper-case table, code points U+A640 to U+A7FF. -/
def upperBlocks11 : List (Nat × List (Nat × List Nat)) := [
  (665, [
    (0xA641, [0xA640]), (0xA643, [0xA642]), (0xA645, [0xA644]), (0xA647, [0xA646]),
    (0xA649, [0xA648]), (0xA64B, [0xA64A]), (0xA64D, [0xA64C]), (0xA64F, [0xA64E]),
    (0xA651, [0xA650]), (0xA653, [0xA652]), (0xA655, [0xA654]), (0xA657, [0xA656]),
    (0xA659, [0xA658]), (0xA65B, [0xA65A]), (0xA65D, [0xA65C]), (0xA65F, [0xA65E]),
    (0xA661, [0xA660]), (0xA663, [0xA662]), (0xA665, [0xA664]), (0xA667, [0xA666]),
    (0xA669, [0xA668]), (0xA66B, [0xA66A]), (0xA66D, [0xA66C])]),
  (666, [
    (0xA681, [0xA680]), (0xA683, [0xA682]), (0xA685, [0xA684]), (0xA687, [0xA686]),
    (0xA689, [0xA688]), (0xA68B, [0xA68A]), (0xA68D, [0xA68C]), (0xA68F, [0xA68E]),
    (0xA691, [0xA690]), (0xA693, [0xA692]), (0xA695, [0xA694]), (0xA697, [0xA696]),
    (0xA699, [0xA698]), (0xA69B, [0xA69A])]),
  (668, [
    (0xA723, [0xA722]), (0xA725, [0xA724]), (0xA727, [0xA726]), (0xA729, [0xA728]),
    (0xA72B, [0xA72A]), (0xA72D, [0xA72C]), (0xA72F, [0xA72E]), (0xA733, [0xA732]),
    (0xA735, [0xA734]), (0xA737, [0xA736]), (0xA739, [0xA738]), (0xA73B, [0xA73A]),
    (0xA73D, [0xA73C]), (0xA73F, [0xA73E])]),
  (669, [
    (0xA741, [0xA740]), (0xA743, [0xA742]), (0xA745, [0xA744]), (0xA747, [0xA746]),
    (0xA749, [0xA748]), (0xA74B, [0xA74A]), (0xA74D, [0xA74C]), (0xA74F, [0xA74E]),
    (0xA751, [0xA750]), (0xA753, [0xA752]), (0xA755, [0xA754]), (0xA757, [0xA756]),
    (0xA759, [0xA758]), (0xA75B, [0xA75A]), (0xA75D, [0xA75C]), (0xA75F, [0xA75E]),
    (0xA761, [0xA760]), (0xA763, [0xA762]), (0xA765, [0xA764]), (0xA767, [0xA766]),
    (0xA769, [0xA768]), (0xA76B, [0xA76A]), (0xA76D, [0xA76C]), (0xA76F, [0xA76E]),
    (0xA77A, [0xA779]), (0xA77C, [0xA77B]), (0xA77F, [0xA77E])]),
  (670, [
    (0xA781, [0xA780]), (0xA783, [0xA782]), (0xA785, [0xA784]), (0xA787, [0xA786]),
    (0xA78C, [0xA78B]), (0xA791, [0xA790]), (0xA793, [0xA792]), (0xA794, [0xA7C4]),
    (0xA797, [0xA796]), (0xA799, [0xA798]), (0xA79B, [0xA79A]), (0xA79D, [0xA79C]),
    (0xA79F, [0xA79E]), (0xA7A1, [0xA7A0]), (0xA7A3, [0xA7A2]), (0xA7A5, [0xA7A4]),
    (0xA7A7, [0xA7A6]), (0xA7A9, [0xA7A8]), (0xA7B5, [0xA7B4]), (0xA7B7, [0xA7B6]),
    (0xA7B9, [0xA7B8]), (0xA7BB, [0xA7BA]), (0xA7BD, [0xA7BC]), (0xA7BF, [0xA7BE])]),
  (671, [
    (0xA7C1, [0xA7C0]), (0xA7C3, [0xA7C2]), (0xA7C8, [0xA7C7]), (0xA7CA, [0xA7C9]),
    (0xA7D1, [0xA7D0]), (0xA7D7, [0xA7D6]), (0xA7D9, [0xA7D8]), (0xA7F6, [0xA7F5])])]

/-- Upper-case table, code points U+AB40 to U+FB3F. -/
def upperBlocks12 : List (Nat × List (Nat × List Nat)) := [
  (685, [
    (0xAB53, [0xA7B3]), (0xAB70, [0x13A0]), (0xAB71, [0x13A1]), (0xAB72, [0x13A2]),
    (0xAB73, [0x13A3]), (0xAB74, [0x13A4]), (0xAB75, [0x13A5]), (0xAB76, [0x13A6]),
    (0xAB77, [0x13A7]), (0xAB78, [0x13A8]), (0xAB79, [0x13A9]), (0xAB7A, [0x13AA]),
    (0xAB7B, [0x13AB]), (0xAB7C, [0x13AC]), (0xAB7D, [0x13AD]), (0xAB7E, [0x13AE]),
    (0xAB7F, [0x13AF])]),
  (686, [
    (0xAB80, [0x13B0]), (0xAB81, [0x13B1]), (0xAB82, [0x13B2]), (0xAB83, [0x13B3]),
    (0xAB84, [0x13B4]), (0xAB85, [0x13B5]), (0xAB86, [0x13B6]), (0xAB87, [0x13B7]),
    (0xAB88, [0x13B8]), (0xAB89, [0x13B9]), (0xAB8A, [0x13BA]), (0xAB8B, [0x13BB]),
    (0xAB8C, [0x13BC]), (0xAB8D, [0x13BD]), (0xAB8E, [0x13BE]), (0xAB8F, [0x13BF]),
    (0xAB90, [0x13C0]), (0xAB91, [0x13C1]), (0xAB92, [0x13C2]), (0xAB93, [0x13C3]),
    (0xAB94, [0x13C4]), (0xAB95, [0x13C5]), (0xAB96, [0x13C6]), (0xAB97, [0x13C7]),
    (0xAB98, [0x13C8]), (0xAB99, [0x13C9]), (0xAB9A, [0x13CA]), (0xAB9B, [0x13CB]),
    (0xAB9C, [0x13CC]), (0xAB9D, [0x13CD]), (0xAB9E, [0x13CE]), (0xAB9F, [0x13CF]),
    (0xABA0, [0x13D0]), (0xABA1, [0x13D1]), (0xABA2, [0x13D2]), (0xABA3, [0x13D3]),
    (0xABA4, [0x13D4]), (0xABA5, [0x13D5]), (0xABA6, [0x13D6]), (0xABA7, [0x13D7]),
    (0xABA8, [0x13D8]), (0xABA9, [0x13D9]), (0xABAA, [0x13DA]), (0xABAB, [0x13DB]),
    (0xABAC, [0x13DC]), (0xABAD, [0x13DD]), (0xABAE, [0x13DE]), (0xABAF, [0x13DF]),
    (0xABB0, [0x13E0]), (0xABB1, [0x13E1]), (0xABB2, [0x13E2]), (0xABB3, [0x13E3]),
    (0xABB4, [0x13E4]), (0xABB5, [0x13E5]), (0xABB6, [0x13E6]), (0xABB7, [0x13E7]),
    (0xABB8, [0x13E8]), (0xABB9, [0x13E9]), (0xABBA, [0x13EA]), (0xABBB, [0x13EB]),
    (0xABBC, [0x13EC]), (0xABBD, [0x13ED]), (0xABBE, [0x13EE]), (0xABBF, [0x13EF])]),
  (1004, [
    (0xFB00, [0x46, 0x46]), (0xFB01, [0x46, 0x49]), (0xFB02, [0x46, 0x4C]),
    (0xFB03, [0x46, 0x46, 0x49]), (0xFB04, [0x46, 0x46, 0x4C]), (0xFB05, [0x53, 0x54]),
    (0xFB06, [0x53, 0x54]), (0xFB13, [0x544, 0x546]), (0xFB14, [0x544, 0x535]),
    (0xFB15, [0x544, 0x53B]), (0xFB16, [0x54E, 0x546]), (0xFB17, [0x544, 0x53D])])]

/-- Upper-case table, code points U+FF40 to U+104FF. -/
def upperBlocks13 : List (Nat × List (Nat × List Nat)) := [
  (1021, [
    (0xFF41, [0xFF21]), (0xFF42, [0xFF22]), (0xFF43, [0xFF23]), (0xFF44, [0xFF24]),
    (0xFF45, [0xFF25]), (0xFF46, [0xFF26]), (0xFF47, [0xFF27]), (0xFF48, [0xFF28]),
    (0xFF49, [0xFF29]), (0xFF4A, [0xFF2A]), (0xFF4B, [0xFF2B]), (0xFF4C, [0xFF2C]),
    (0xFF4D, [0xFF2D]), (0xFF4E, [0xFF2E]), (0xFF4F, [0xFF2F]), (0xFF50, [0xFF30]),
    (0xFF51, [0xFF31]), (0xFF52, [0xFF32]), (0xFF53, [0xFF33]), (0xFF54, [0xFF34]),
    (0xFF55, [0xFF35]), (0xFF56, [0xFF36]), (0xFF57, [0xFF37]), (0xFF58, [0xFF38]),
    (0xFF59, [0xFF39]), (0xFF5A, [0xFF3A])]),
  (1040, [
    (0x10428, [0x10400]), (0x10429, [0x10401]), (0x1042A, [0x10402]), (0x1042B, [0x10403]),
    (0x1042C, [0x10404]), (0x1042D, [0x10405]), (0x1042E, [0x10406]), (0x1042F, [0x10407]),
    (0x10430, [0x10408]), (0x10431, [0x10409]), (0x10432, [0x1040A]), (0x10433, [0x1040B]),
    (0x10434, [0x1040C]), (0x10435, [0x1040D]), (0x10436, [0x1040E]), (0x10437, [0x1040F]),
    (0x10438, [0x10410]), (0x10439, [0x10411]), (0x1043A, [0x10412]), (0x1043B, [0x10413]),
    (0x1043C, [0x10414]), (0x1043D, [0x10415]), (0x1043E, [0x10416]), (0x1043F, [0x10417])]),
  (1041, [
    (0x10440, [0x10418]), (0x10441, [0x10419]), (0x10442, [0x1041A]), (0x10443, [0x1041B]),
    (0x10444, [0x1041C]), (0x10445, [0x1041D]), (0x10446, [0x1041E]), (0x10447, [0x1041F]),
    (0x10448, [0x10420]), (0x10449, [0x10421]), (0x1044A, [0x10422]), (0x1044B, [0x10423]),
    (0x1044C, [0x10424]), (0x1044D, [0x10425]), (0x1044E, [0x10426]), (0x1044F, [0x10427])]),
  (1043, [
    (0x104D8, [0x104B0]), (0x104D9, [0x104B1]), (0x104DA, [0x104B2]), (0x104DB, [0x104B3]),
    (0x104DC, [0x104B4]), (0x104DD, [0x104B5]), (0x104DE, [0x104B6]), (0x104DF, [0x104B7]),
    (0x104E0, [0x104B8]), (0x104E1, [0x104B9]), (0x104E2, [0x104BA]), (0x104E3, [0x104BB]),
    (0x104E4, [0x104BC]), (0x104E5, [0x104BD]), (0x104E6, [0x104BE]), (0x104E7, [0x104BF]),
    (0x104E8, [0x104C0]), (0x104E9, [0x104C1]), (0x104EA, [0x104C2]), (0x104EB, [0x104C3]),
    (0x104EC, [0x104C4]), (0x104ED, [0x104C5]), (0x104EE, [0x104C6]), (0x104EF, [0x104C7]),
    (0x104F0, [0x104C8]), (0x104F1, [0x104C9]), (0x104F2, [0x104CA]), (0x104F3, [0x104CB]),
    (0x104F4, [0x104CC]), (0x104F5, [0x104CD]), (0x104F6, [0x104CE]), (0x104F7, [0x104CF]),
    (0x104F8, [0x104D0]), (0x104F9, [0x104D1]), (0x104FA, [0x104D2]), (0x104FB, [0x104D3])])]

/-- Upper-case table, code points U+10580 to U+10CFF. -/
def upperBlocks14 : List (Nat × List (Nat × List Nat)) := [
  (1046, [
    (0x10597, [0x10570]), (0x10598, [0x10571]), (0x10599, [0x10572]), (0x1059A, [0x10573]),
    (0x1059B, [0x10574]), (0x1059C, [0x10575]), (0x1059D, [0x10576]), (0x1059E, [0x10577]),
    (0x1059F, [0x10578]), (0x105A0, [0x10579]), (0x105A1, [0x1057A]), (0x105A3, [0x1057C]),
    (0x105A4, [0x1057D]), (0x105A5, [0x1057E]), (0x105A6, [0x1057F]), (0x105A7, [0x10580]),
    (0x105A8, [0x10581]), (0x105A9, [0x10582]), (0x105AA, [0x10583]), (0x105AB, [0x10584]),
    (0x105AC, [0x10585]), (0x105AD, [0x10586]), (0x105AE, [0x10587]), (0x105AF, [0x10588]),
    (0x105B0, [0x10589]), (0x105B1, [0x1058A]), (0x105B3, [0x1058C]), (0x105B4, [0x1058D]),
    (0x105B5, [0x1058E]), (0x105B6, [0x1058F]), (0x105B7, [0x10590]), (0x105B8, [0x10591]),
    (0x105B9, [0x10592]), (0x105BB, [0x10594]), (0x105BC, [0x10595])]),
  (1075, [
    (0x10CC0, [0x10C80]), (0x10CC1, [0x10C81]), (0x10CC2, [0x10C82]), (0x10CC3, [0x10C83]),
    (0x10CC4, [0x10C84]), (0x10CC5, [0x10C85]), (0x10CC6, [0x10C86]), (0x10CC7, [0x10C87]),
    (0x10CC8, [0x10C88]), (0x10CC9, [0x10C89]), (0x10CCA, [0x10C8A]), (0x10CCB, [0x10C8B]),
    (0x10CCC, [0x10C8C]), (0x10CCD, [0x10C8D]), (0x10CCE, [0x10C8E]), (0x10CCF, [0x10C8F]),
    (0x10CD0, [0x10C90]), (0x10CD1, [0x10C91]), (0x10CD2, [0x10C92]), (0x10CD3, [0x10C93]),
    (0x10CD4, [0x10C94]), (0x10CD5, [0x10C95]), (0x10CD6, [0x10C96]), (0x10CD7, [0x10C97]),
    (0x10CD8, [0x10C98]), (0x10CD9, [0x10C99]), (0x10CDA, [0x10C9A]), (0x10CDB, [0x10C9B]),
    (0x10CDC, [0x10C9C]), (0x10CDD, [0x10C9D]), (0x10CDE, [0x10C9E]), (0x10CDF, [0x10C9F]),
    (0x10CE0, [0x10CA0]), (0x10CE1, [0x10CA1]), (0x10CE2, [0x10CA2]), (0x10CE3, [0x10CA3]),
    (0x10CE4, [0x10CA4]), (0x10CE5, [0x10CA5]), (0x10CE6, [0x10CA6]), (0x10CE7, [0x10CA7]),
    (0x10CE8, [0x10CA8]), (0x10CE9, [0x10CA9]), (0x10CEA, [0x10CAA]), (0x10CEB, [0x10CAB]),
    (0x10CEC, [0x10CAC]), (0x10CED, [0x10CAD]), (0x10CEE, [0x10CAE]), (0x10CEF, [0x10CAF]),
    (0x10CF0, [0x10CB0]), (0x10CF1, [0x10CB1]), (0x10CF2, [0x10CB2])])]

/-- Upper-case table, code points U+118C0 to U+1E97F. -/
def upperBlocks15 : List (Nat × List (Nat × List Nat)) := [
  (1123, [
    (0x118C0, [0x118A0]), (0x118C1, [0x118A1]), (0x118C2, [0x118A2]), (0x118C3, [0x118A3]),
    (0x118C4, [0x118A4]), (0x118C5, [0x118A5]), (0x118C6, [0x118A6]), (0x118C7, [0x118A7]),
    (0x118C8, [0x118A8]), (0x118C9, [0x118A9]), (0x118CA, [0x118AA]), (0x118CB, [0x118AB]),
    (0x118CC, [0x118AC]), (0x118CD, [0x118AD]), (0x118CE, [0x118AE]), (0x118CF, [0x118AF]),
    (0x118D0, [0x118B0]), (0x118D1, [0x118B1]), (0x118D2, [0x118B2]), (0x118D3, [0x118B3]),
    (0x118D4, [0x118B4]), (0x118D5, [0x118B5]), (0x118D6, [0x118B6]), (0x118D7, [0x118B7]),
    (0x118D8, [0x118B8]), (0x118D9, [0x118B9]), (0x118DA, [0x118BA]), (0x118DB, [0x118BB]),
    (0x118DC, [0x118BC]), (0x118DD, [0x118BD]), (0x118DE, [0x118BE]), (0x118DF, [0x118BF])]),
  (1465, [
    (0x16E60, [0x16E40]), (0x16E61, [0x16E41]), (0x16E62, [0x16E42]), (0x16E63, [0x16E43]),
    (0x16E64, [0x16E44]), (0x16E65, [0x16E45]), (0x16E66, [0x16E46]), (0x16E67, [0x16E47]),
    (0x16E68, [0x16E48]), (0x16E69, [0x16E49]), (0x16E6A, [0x16E4A]), (0x16E6B, [0x16E4B]),
    (0x16E6C, [0x16E4C]), (0x16E6D, [0x16E4D]), (0x16E6E, [0x16E4E]), (0x16E6F, [0x16E4F]),
    (0x16E70, [0x16E50]), (0x16E71, [0x16E51]), (0x16E72, [0x16E52]), (0x16E73, [0x16E53]),
    (0x16E74, [0x16E54]), (0x16E75, [0x16E55]), (0x16E76, [0x16E56]), (0x16E77, [0x16E57]),
    (0x16E78, [0x16E58]), (0x16E79, [0x16E59]), (0x16E7A, [0x16E5A]), (0x16E7B, [0x16E5B]),
    (0x16E7C, [0x16E5C]), (0x16E7D, [0x16E5D]), (0x16E7E, [0x16E5E]), (0x16E7F, [0x16E5F])]),
  (1956, [
    (0x1E922, [0x1E900]), (0x1E923, [0x1E901]), (0x1E924, [0x1E902]), (0x1E925, [0x1E903]),
    (0x1E926, [0x1E904]), (0x1E927, [0x1E905]), (0x1E928, [0x1E906]), (0x1E929, [0x1E907]),
    (0x1E92A, [0x1E908]), (0x1E92B, [0x1E909]), (0x1E92C, [0x1E90A]), (0x1E92D, [0x1E90B]),
    (0x1E92E, [0x1E90C]), (0x1E92F, [0x1E90D]), (0x1E930, [0x1E90E]), (0x1E931, [0x1E90F]),
    (0x1E932, [0x1E910]), (0x1E933, [0x1E911]), (0x1E934, [0x1E912]), (0x1E935, [0x1E913]),
    (0x1E936, [0x1E914]), (0x1E937, [0x1E915]), (0x1E938, [0x1E916]), (0x1E939, [0x1E917]),
    (0x1E93A, [0x1E918]), (0x1E93B, [0x1E919]), (0x1E93C, [0x1E91A]), (0x1E93D, [0x1E91B]),
    (0x1E93E, [0x1E91C]), (0x1E93F, [0x1E91D])]),
  (1957, [
    (0x1E940, [0x1E91E]), (0x1E941, [0x1E91F]), (0x1E942, [0x1E920]), (0x1E943, [0x1E921])])]

/-- The whole upper-case table outside ASCII, block by block. -/
def upperBlocks : List (Nat × List (Nat × List Nat)) :=
  upperBlocks0
    ++ upperBlocks1
    ++ upperBlocks2
    ++ upperBlocks3
    ++ upperBlocks4
    ++ upperBlocks5
    ++ upperBlocks6
    ++ upperBlocks7
    ++ upperBlocks8
    ++ upperBlocks9
    ++ upperBlocks10
    ++ upperBlocks11
    ++ upperBlocks12
    ++ upperBlocks13
    ++ upperBlocks14
    ++ upperBlocks15

/-- The entry of code point `n` in a list of entries, if it has one. -/
def lookupCode (n : Nat) : List (Nat × List Nat) → Option (List Nat)
  | [] => none
  | (k, codes) :: rest => if k = n then some codes else lookupCode n rest

/-- The entries of block `b` in a list of blocks; none when the block is not
listed. -/
def lookupBlock (b : Nat) : List (Nat × List (Nat × List Nat)) → List (Nat × List Nat)
  | [] => []
  | (k, entries) :: rest => if k = b then entries else lookupBlock b rest

/-- The upper-case form of the non-ASCII code point `n`, when the table has an
entry for it. -/
def upperCodes (n : Nat) : Option (List Nat) :=
  lookupCode n (lookupBlock (n / 64) upperBlocks)

/-- `String.prototype.toUpperCase` on one character: ASCII small letters are
mapped to their capitals, the other ASCII characters are left as they are, and
a character outside ASCII is mapped by the upper-case table. -/
def toUpperCaseChar (c : Char) : List Char :=
  if 97 ≤ c.toNat ∧ c.toNat ≤ 122 then [Char.ofNat (c.toNat - 32)]
  else if c.toNat < 128 then [c]
  else
    match upperCodes c.toNat with
    | some codes => codes.map Char.ofNat
    | none => [c]

/-- `s.toUpperCase()`. -/
def toUpperCase (s : String) : String :=
  ⟨s.data.flatMap toUpperCaseChar⟩

/-- The character class `[a-z ]`. -/
def isLowerOrSpace (c : Char) : Bool :=
  (97 ≤ c.toNat && c.toNat ≤ 122) || c.toNat = 32

/-- `s.replace(/[^a-z ]/g, '')`: delete every character outside `[a-z ]`. -/
def stripNonLetters (s : String) : String :=
  ⟨s.data.filter isLowerOrSpace⟩

/-- `s.replace(/\x60/g, "'")`: every backtick (U+0060) becomes an apostrophe
(U+0027). -/
def replaceBackticks (s : String) : String :=
  ⟨s.data.map (fun c => if c.toNat = 96 then Char.ofNat 39 else c)⟩

/-- The characters `String.prototype.trim` removes: ECMAScript white space and
line terminators. -/
def isWhiteSpace (c : Char) : Bool :=
  c.toNat = 0x9 || c.toNat = 0xA || c.toNat = 0xB || c.toNat = 0xC || c.toNat = 0xD
    || c.toNat = 0x20 || c.toNat = 0xA0 || c.toNat = 0x1680
    || (0x2000 ≤ c.toNat && c.toNat ≤ 0x200A)
    || c.toNat = 0x2028 || c.toNat = 0x2029 || c.toNat = 0x202F || c.toNat = 0x205F
    || c.toNat = 0x3000 || c.toNat = 0xFEFF

/-- `s.trim()`. -/
def trim (s : String) : String :=
  ⟨((s.data.dropWhile isWhiteSpace).reverse.dropWhile isWhiteSpace).reverse⟩

/-- `xs.join(sep)` for an array of strings. -/
def join (sep : String) : List String → String
  | [] => ""
  | [x] => x
  | x :: y :: rest => x ++ sep ++ join sep (y :: rest)

/-! ## Data model -/

/-- The `_rawData` of a sheet row: its cells. -/
abbrev Row := List String

/-- A worksheet: `headerValues` and the rows `getRows()` returns for it. -/
structure Sheet where
  headerValues : List String
  rows : List Row
deriving Repr, DecidableEq

/-- What `await sheet.getRows()` does for a worksheet (lines 32-33): it returns
the rows, having loaded the header values on the way, or it throws, as the
library does for a worksheet whose header row is empty. -/
inductive GetRows where
  /-- The call returned: the header values and the rows. -/
  | returned (sheet : Sheet) : GetRows
  /-- The call threw an error with this message. -/
  | threw (message : String) : GetRows
deriving Repr, DecidableEq

/-- The data rows a worksheet yields: the rows `getRows()` returned, none when
it threw. -/
def dataRows : GetRows → List Row
  | GetRows.returned sheet => sheet.rows
  | GetRows.threw _ => []

/-- The lookup object `finalMap`. -/
abbrev Index := String → Option Row

/-- How a run of `combineSheets` ends. -/
inductive Outcome where
  /-- The early `return` of the empty-sheet guard: nothing is written. -/
  | skipped : Outcome
  /-- The call `fs.writeFileSync('nba_stats.csv', csvContent)`. -/
  | written (csvContent : String) : Outcome
  /-- The `catch` branch: the error is logged and the process exits with 1. -/
  | failed (message : String) : Outcome
deriving Repr, DecidableEq

/-! ## Keys -/

/-- The name half of the JoinKey: lower-case, keep `[a-z ]`, backtick to
apostrophe, trim (the chain of lines 49-53 and of lines 67-71). -/
def normName (cell : String) : String :=
  trim (replaceBackticks (stripNonLetters (toLowerCase cell)))

/-- The team half of the JoinKey: upper-case, trim (the chain of line 54 and of
line 72). -/
def normTeam (cell : String) : String :=
  trim (toUpperCase cell)

/-- The JoinKey of a row: name half, separator, team half, from cells 0 and
2. -/
def joinKey (row : Row) : String :=
  normName (row.getD 0 "") ++ "|" ++ normTeam (row.getD 2 "")

/-- The key of a secondary row, as lines 49-55 compute it: `name`, `team` and
`key` of the first loop. -/
def finalKey (row : Row) : String :=
  let name := trim (replaceBackticks (stripNonLetters (toLowerCase (row.getD 0 ""))))
  let team := trim (toUpperCase (row.getD 2 ""))
  name ++ "|" ++ team

/-- The key of a primary row, as lines 67-73 compute it: `cName`, `cTeam` and
`key` of the second loop. -/
def cheatKey (cRow : Row) : String :=
  let cName := trim (replaceBackticks (stripNonLetters (toLowerCase (cRow.getD 0 ""))))
  let cTeam := trim (toUpperCase (cRow.getD 2 ""))
  cName ++ "|" ++ cTeam

/-! ## Step 4: the lookup map -/

/-- The object `{}`. -/
def emptyIndex : Index := fun _ => none

/-- The assignment `finalMap[key] = row`. -/
def setKey (m : Index) (key : String) (row : Row) : Index :=
  fun k => if k = key then some row else m k

/-- The body of the loop of lines 47-57 for one row. -/
def indexRow (m : Index) (row : Row) : Index :=
  setKey m (finalKey row) row

/-- The lookup map once the loop of lines 47-57 has run: the loop starts at
`i = 1`. -/
def finalMap (finalData : List Row) : Index :=
  (finalData.drop 1).foldl indexRow emptyIndex

/-! ## Step 5: headers and rows -/

/-- `xs.includes(h)`. -/
def includes (xs : List String) (h : String) : Bool :=
  xs.any (fun x => x == h)

/-- `finalHeaders.filter(h => !cheatHeaders.includes(h))`. -/
def addedHeaders (cheatHeaders finalHeaders : List String) : List String :=
  finalHeaders.filter (fun h => !(includes cheatHeaders h))

/-- `[...cheatHeaders, ...addedHeaders]`. -/
def newHeaders (cheatHeaders finalHeaders : List String) : List String :=
  cheatHeaders ++ addedHeaders cheatHeaders finalHeaders

/-- `xs.indexOf(h)`: the first position of `h`, with `none` for `-1`. -/
def indexOf : List String → String → Option Nat
  | [], _ => none
  | x :: xs, h => if x = h then some 0 else (indexOf xs h).map (· + 1)

/-- `fRow[i] || ''` where `i` is the result of `indexOf`: position `-1` and a
position past the end of the row are `undefined`, which `||` turns into the
empty string, as it does the empty cell. -/
def cellOrEmpty (fRow : Row) : Option Nat → String
  | none => ""
  | some i => fRow.getD i ""

/-- The body of the loop of lines 65-79 for one primary row `cRow`: the row
that is pushed onto `newRows`. -/
def mergeRow (m : Index) (finalHeaders added : List String) (cRow : Row) : Row :=
  let fRow := (m (cheatKey cRow)).getD (List.replicate finalHeaders.length "")
  let addedValues := added.map (fun h => cellOrEmpty fRow (indexOf finalHeaders h))
  cRow ++ addedValues

/-- The array `newRows` once the loop of lines 65-79 has run: the loop starts
at `k = 1`. -/
def newRows (cheatHeaders finalHeaders : List String) (cheatData finalData : List Row) :
    List Row :=
  (cheatData.drop 1).map
    (mergeRow (finalMap finalData) finalHeaders (addedHeaders cheatHeaders finalHeaders))

/-! ## Step 6: CSV text -/

/-- `s.replace(/"/g, '""')`: every double quote (U+0022) is doubled. -/
def doubleQuotes (s : String) : String :=
  ⟨s.data.flatMap (fun c => if c.toNat = 34 then [c, c] else [c])⟩

/-- The field written for a cell `v` of a data row: the cell with its double
quotes doubled, between double quotes. -/
def csvField (v : String) : String :=
  "\"" ++ doubleQuotes v ++ "\""

/-- The line of a data row: `row.map(v => ...).join(',')`. -/
def csvRow (row : Row) : String :=
  join "," (row.map csvField)

/-- The array `csvLines`: the header names joined by commas, then one line for
each row of `newRows`. -/
def csvLines (headers : List String) (rows : List Row) : List String :=
  join "," headers :: rows.map csvRow

/-- `csvLines.join('\n')`. -/
def csvContent (headers : List String) (rows : List Row) : String :=
  join "\n" (csvLines headers rows)

/-! ## The run -/

/-- The function `combineSheets`, from the two entries of `doc.sheetsByTitle`
(absent when the spreadsheet has no sheet of that title), each with what its
`getRows()` does, to the outcome of the run.  The two `getRows()` calls of
lines 32-33 are inside the `try`, before the guard: when one throws, the run
ends in the `catch` branch with the message of the error. -/
def combineSheets (cheatSheet finalProj : Option GetRows) : Outcome :=
  match cheatSheet, finalProj with
  | some cheatRows, some finalRows =>
    match cheatRows with
    | GetRows.threw message => Outcome.failed message
    | GetRows.returned cheat =>
      match finalRows with
      | GetRows.threw message => Outcome.failed message
      | GetRows.returned final =>
        let cheatData := cheat.rows
        let finalData := final.rows
        if cheatData.length = 0 ∨ finalData.length = 0 then
          Outcome.skipped
        else
          let finalHeaders := final.headerValues
          let cheatHeaders := cheat.headerValues
          Outcome.written
            (csvContent (newHeaders cheatHeaders finalHeaders)
              (newRows cheatHeaders finalHeaders cheatData finalData))
  | _, _ => Outcome.failed "One or both source sheets not found. Check sheet names."

/-! ## Example tables -/

/-- The primary table of the end-to-end example: header `Name, Team` and one
data row. -/
def examplePrimary : Sheet :=
  ⟨["Name", "Team"], [["LeBron James", "LAL"]]⟩

/-- The secondary table of the end-to-end example: header `Name, Team, Proj`
and one data row. -/
def exampleSecondary : Sheet :=
  ⟨["Name", "Team", "Proj"], [["LeBron James", "LAL", "27.3"]]⟩

/-- A secondary table with a header and no data row: `getRows()` returns no
row. -/
def headerOnlySecondary : Sheet :=
  ⟨["Name", "Team", "Proj"], []⟩

/-- A blank worksheet: no header row and no data row; `getRows()` throws while
loading the header row. -/
def blankSheet : GetRows :=
  GetRows.threw
    ("No values in the header row - fill the first row with header values "
      ++ "before trying to interact with rows")

/-- A primary table with the team in cell 2 and two data rows. -/
def rosterPrimary : Sheet :=
  ⟨["Name", "Pos", "Team"], [["LeBron James", "F", "LAL"], ["Jayson Tatum", "F", "BOS"]]⟩

/-- A secondary table with the team in cell 2 and two data rows, for the same
two players as `rosterPrimary`. -/
def rosterSecondary : Sheet :=
  ⟨["Name", "Proj", "Team"], [["LeBron James", "27.3", "LAL"], ["Jayson Tatum", "30.1", "BOS"]]⟩

/-! ## Definitions the claims are compared with -/

/-- The Row Normalizer in the words of the specification (section 4.1), on the
characters of the two cells: lower-case the name; remove every character not in
`[a-z ]`; replace backtick with apostrophe; trim leading and trailing white
space; upper-case and trim the team; join with the separator `|`. -/
def normalize (rawName rawTeam : String) : String :=
  let lowered := rawName.data.flatMap toLowerCaseChar
  let kept := lowered.filter (fun c => decide (('a' ≤ c ∧ c ≤ 'z') ∨ c = ' '))
  let replaced := kept.map (fun c => if c = Char.ofNat 96 then Char.ofNat 39 else c)
  let name := (replaced.dropWhile isWhiteSpace).rdropWhile isWhiteSpace
  let team :=
    ((rawTeam.data.flatMap toUpperCaseChar).dropWhile isWhiteSpace).rdropWhile isWhiteSpace
  String.mk name ++ "|" ++ String.mk team

/-- The key computation of lines 49-55 with the replacement step of line 52
taken out. -/
def finalKeyWithoutReplace (row : Row) : String :=
  let name := trim (stripNonLetters (toLowerCase (row.getD 0 "")))
  let team := trim (toUpperCase (row.getD 2 ""))
  name ++ "|" ++ team

/-- Where a CSV reader stands within a record. -/
inductive ReadState where
  /-- At the start of a field. -/
  | fieldStart : ReadState
  /-- Inside a field that did not open with a double quote. -/
  | unquoted : ReadState
  /-- Inside a quoted field. -/
  | quoted : ReadState
  /-- Inside a quoted field, right after a double quote: either the first half
  of a doubled quote or the closing quote. -/
  | quoteSeen : ReadState
deriving Repr, DecidableEq

/-- Modelled from the spec: the standard CSV reader of section 8 (quoted
fields, doubled-quote escape), which is not part of the repository, as a state
machine over the characters of one record.  `cur` holds the characters of the
field being read and `acc` the fields already read.  A comma (U+002C) ends a
field outside quotes; inside a quoted field every character is content, a
doubled double quote (U+0022) stands for one double quote, and a single one
closes the field.  A quote inside an unquoted field, text after a closing
quote, and a quoted field that is not closed are rejected. -/
def readFields : ReadState → List Char → List String → List Char → Option (List String)
  | .fieldStart, _, acc, [] => some (acc ++ [""])
  | .fieldStart, _, acc, c :: rest =>
    if c.toNat = 34 then readFields .quoted [] acc rest
    else if c.toNat = 44 then readFields .fieldStart [] (acc ++ [""]) rest
    else readFields .unquoted [c] acc rest
  | .unquoted, cur, acc, [] => some (acc ++ [String.mk cur])
  | .unquoted, cur, acc, c :: rest =>
    if c.toNat = 34 then none
    else if c.toNat = 44 then readFields .fieldStart [] (acc ++ [String.mk cur]) rest
    else readFields .unquoted (cur ++ [c]) acc rest
  | .quoted, _, _, [] => none
  | .quoted, cur, acc, c :: rest =>
    if c.toNat = 34 then readFields .quoteSeen cur acc rest
    else readFields .quoted (cur ++ [c]) acc rest
  | .quoteSeen, cur, acc, [] => some (acc ++ [String.mk cur])
  | .quoteSeen, cur, acc, c :: rest =>
    if c.toNat = 34 then readFields .quoted (cur ++ [c]) acc rest
    else if c.toNat = 44 then readFields .fieldStart [] (acc ++ [String.mk cur]) rest
    else none

/-- Modelled from the spec: reading one line back with the standard CSV
reader; `none` when the line is not a well-formed record. -/
def readCsvLine (line : String) : Option (List String) :=
  readFields .fieldStart [] [] line.data

/-! ## Checks on the upper-case table -/

/-- The white-space test of `isWhiteSpace`, on a code point. -/
def isWhiteSpaceCode (n : Nat) : Bool :=
  n = 0x9 || n = 0xA || n = 0xB || n = 0xC || n = 0xD
    || n = 0x20 || n = 0xA0 || n = 0x1680
    || (0x2000 ≤ n && n ≤ 0x200A)
    || n = 0x2028 || n = 0x2029 || n = 0x202F || n = 0x205F
    || n = 0x3000 || n = 0xFEFF

/-- What is checked of a code point `v` in the upper-case form of a table
entry: it is an ASCII capital or a non-ASCII code point without an entry of its
own, it is not white space, and it is a Unicode scalar value. -/
def upperOutputOk (v : Nat) : Bool :=
  ((65 ≤ v && v ≤ 90) || (128 ≤ v && (upperCodes v).isNone)) && !isWhiteSpaceCode v
    && (v < 0xD800 || (0xDFFF < v && v < 0x110000))

/-- What is checked of a table entry: its code point is outside ASCII and not
white space, and its upper-case form is not empty and passes `upperOutputOk`
at every code point. -/
def upperEntryOk (e : Nat × List Nat) : Bool :=
  128 ≤ e.1 && !isWhiteSpaceCode e.1 && !e.2.isEmpty && e.2.all upperOutputOk

/-! ## General facts about the model -/

theorem length_mergeRow (m : Index) (finalHeaders added : List String) (cRow : Row) :
    (mergeRow m finalHeaders added cRow).length = cRow.length + added.length := by
  simp [mergeRow]

theorem take_mergeRow (m : Index) (finalHeaders added : List String) (cRow : Row) :
    (mergeRow m finalHeaders added cRow).take cRow.length = cRow := by
  simp [mergeRow]

theorem length_newRows (cheatHeaders finalHeaders : List String) (cheatData finalData : List Row) :
    (newRows cheatHeaders finalHeaders cheatData finalData).length = cheatData.length - 1 := by
  simp [newRows]

theorem length_csvLines (headers : List String) (rows : List Row) :
    (csvLines headers rows).length = rows.length + 1 := by
  simp [csvLines]

theorem includes_iff (xs : List String) (h : String) : includes xs h = true ↔ h ∈ xs := by
  unfold includes
  rw [List.any_eq_true]
  constructor
  · rintro ⟨x, hx, hxh⟩
    have e : x = h := by simpa using hxh
    exact e ▸ hx
  · intro hm
    exact ⟨h, hm, by simp⟩

theorem mem_addedHeaders (cheatHeaders finalHeaders : List String) (h : String) :
    h ∈ addedHeaders cheatHeaders finalHeaders ↔ h ∈ finalHeaders ∧ h ∉ cheatHeaders := by
  unfold addedHeaders
  rw [List.mem_filter, ← includes_iff cheatHeaders h]
  cases includes cheatHeaders h <;> simp

theorem indexOf_of_mem (xs : List String) (h : String) (hm : h ∈ xs) :
    indexOf xs h = some (List.indexOf h xs) := by
  induction xs with
  | nil => simp at hm
  | cons x xs ih =>
    by_cases hx : x = h
    · simp [indexOf, hx]
    · have hm2 : h ∈ xs := by
        rcases List.mem_cons.mp hm with e | e
        · exact absurd e.symm hx
        · exact e
      simp [indexOf, hx, ih hm2, List.indexOf_cons_ne _ hx]

theorem indexOf_of_not_mem (xs : List String) (h : String) (hm : h ∉ xs) :
    indexOf xs h = none := by
  induction xs with
  | nil => rfl
  | cons x xs ih =>
    have hx : x ≠ h := fun e => hm (e ▸ List.mem_cons_self _ _)
    have hm2 : h ∉ xs := fun e => hm (List.mem_cons_of_mem _ e)
    simp [indexOf, hx, ih hm2]

theorem cellOrEmpty_replicate (n : Nat) (i : Option Nat) :
    cellOrEmpty (List.replicate n "") i = "" := by
  cases i with
  | none => rfl
  | some i =>
    by_cases hi : i < n
    · simp [cellOrEmpty, List.getD_eq_getElem?_getD, List.getElem?_replicate, hi]
    · simp [cellOrEmpty, List.getD_eq_getElem?_getD, List.getElem?_replicate, hi]

/-! ## The claims -/

/-- C1, as stated, fails: on the end-to-end example the run does not write the
two-line text with the quoted header and the row of LeBron James; it writes the
single line `Name,Team,Proj`. -/
theorem example_run_differs :
    combineSheets (some (GetRows.returned examplePrimary))
        (some (GetRows.returned exampleSecondary))
        ≠ Outcome.written "\"Name\",\"Team\",\"Proj\"\n\"LeBron James\",\"LAL\",\"27.3\""
      ∧ combineSheets (some (GetRows.returned examplePrimary))
        (some (GetRows.returned exampleSecondary))
        = Outcome.written "Name,Team,Proj" := by
  decide

/-- C1, amended: on the example tables the merged header is `Name, Team, Proj`;
the key is taken from cells 0 and 2, so the primary row has the key
`lebron james|` and the secondary row the key `lebron james|27.3`; the primary
row merged against an index that holds the secondary row is
`LeBron James, LAL` followed by one empty cell, and its CSV line quotes each of
the three cells. -/
theorem example_merge_by_position :
    newHeaders examplePrimary.headerValues exampleSecondary.headerValues
        = ["Name", "Team", "Proj"]
      ∧ cheatKey ["LeBron James", "LAL"] = "lebron james|"
      ∧ finalKey ["LeBron James", "LAL", "27.3"] = "lebron james|27.3"
      ∧ mergeRow (indexRow emptyIndex ["LeBron James", "LAL", "27.3"])
          exampleSecondary.headerValues
          (addedHeaders examplePrimary.headerValues exampleSecondary.headerValues)
          ["LeBron James", "LAL"]
        = ["LeBron James", "LAL", ""]
      ∧ csvRow ["LeBron James", "LAL", ""] = "\"LeBron James\",\"LAL\",\"\"" := by
  decide

/-- C2 fails on the code: with two rows loaded from each sheet, only one merged
row is produced, and it begins with the cells of the second loaded primary row,
not of the first. -/
theorem roster_first_primary_row_dropped :
    newRows rosterPrimary.headerValues rosterSecondary.headerValues
        rosterPrimary.rows rosterSecondary.rows
        = [["Jayson Tatum", "F", "BOS", "30.1"]]
      ∧ (newRows rosterPrimary.headerValues rosterSecondary.headerValues
          rosterPrimary.rows rosterSecondary.rows).length ≠ rosterPrimary.rows.length
      ∧ combineSheets (some (GetRows.returned rosterPrimary))
        (some (GetRows.returned rosterSecondary))
        = Outcome.written "Name,Pos,Team,Proj\n\"Jayson Tatum\",\"F\",\"BOS\",\"30.1\"" := by
  decide

/-- C3 fails on the code: with two rows loaded from the secondary sheet, the
key of the first loaded row finds no entry in the index, while the key of the
second finds that row. -/
theorem roster_first_secondary_row_not_indexed :
    finalMap rosterSecondary.rows (finalKey ["LeBron James", "27.3", "LAL"]) = none
      ∧ finalMap rosterSecondary.rows (finalKey ["Jayson Tatum", "30.1", "BOS"])
        = some ["Jayson Tatum", "30.1", "BOS"] := by
  decide

/-- C4, as stated, fails: a blank secondary worksheet has zero data rows, yet
the run fails: `getRows()` throws on its empty header row, inside the `try`
and before the guard, and the run ends in the `catch` branch instead of
returning normally. -/
theorem blank_sheet_run_fails :
    dataRows blankSheet = []
      ∧ combineSheets (some (GetRows.returned examplePrimary)) (some blankSheet)
        = Outcome.failed
          ("No values in the header row - fill the first row with header values "
            ++ "before trying to interact with rows")
      ∧ combineSheets (some (GetRows.returned examplePrimary)) (some blankSheet)
        ≠ Outcome.skipped := by
  decide

/-- C4, amended: when the primary sheet or the secondary sheet has zero data
rows, the run writes nothing; when `getRows()` returned for both sheets the run
ends in the early return, without an error; when `getRows()` threw for a sheet
the run ends in the `catch` branch with the message of the first error. -/
theorem empty_sheet_no_write (cheat final : GetRows)
    (h : dataRows cheat = [] ∨ dataRows final = []) :
    (∀ text, combineSheets (some cheat) (some final) ≠ Outcome.written text)
      ∧ (∀ c f, cheat = GetRows.returned c → final = GetRows.returned f →
          combineSheets (some cheat) (some final) = Outcome.skipped)
      ∧ (∀ msg, cheat = GetRows.threw msg →
          combineSheets (some cheat) (some final) = Outcome.failed msg)
      ∧ (∀ c msg, cheat = GetRows.returned c → final = GetRows.threw msg →
          combineSheets (some cheat) (some final) = Outcome.failed msg) := by
  cases cheat with
  | threw m =>
    refine ⟨?_, ?_, ?_, ?_⟩
    · intro text e
      simp [combineSheets] at e
    · intro c f e
      exact GetRows.noConfusion e
    · intro msg e
      have hm : m = msg := GetRows.threw.inj e
      simp [combineSheets, hm]
    · intro c msg e
      exact GetRows.noConfusion e
  | returned c0 =>
    cases final with
    | threw m =>
      refine ⟨?_, ?_, ?_, ?_⟩
      · intro text e
        simp [combineSheets] at e
      · intro c f _ e
        exact GetRows.noConfusion e
      · intro msg e
        exact GetRows.noConfusion e
      · intro c msg _ e
        have hm : m = msg := GetRows.threw.inj e
        simp [combineSheets, hm]
    | returned f0 =>
      have hs : combineSheets (some (GetRows.returned c0)) (some (GetRows.returned f0))
          = Outcome.skipped := by
        rcases h with h | h
        · have hc : c0.rows = [] := h
          simp [combineSheets, hc]
        · have hf : f0.rows = [] := h
          simp [combineSheets, hf]
      refine ⟨?_, ?_, ?_, ?_⟩
      · intro text
        rw [hs]
        exact fun e => Outcome.noConfusion e
      · intro c f _ _
        exact hs
      · intro msg e
        exact GetRows.noConfusion e
      · intro c msg _ e
        exact GetRows.noConfusion e

/-- Witness of C4: a secondary sheet with a header and no data row, next to the
primary table of the example. -/
theorem empty_sheet_no_write_witness :
    (dataRows (GetRows.returned examplePrimary) = []
        ∨ dataRows (GetRows.returned headerOnlySecondary) = [])
      ∧ combineSheets (some (GetRows.returned examplePrimary))
          (some (GetRows.returned headerOnlySecondary))
        = Outcome.skipped :=
  ⟨Or.inr rfl,
    (empty_sheet_no_write (GetRows.returned examplePrimary)
      (GetRows.returned headerOnlySecondary) (Or.inr rfl)).2.1
      examplePrimary headerOnlySecondary rfl rfl⟩

/-- C5 fails on the code: when the primary sheet has exactly one loaded row,
the file is written with the header line alone and no data line. -/
theorem single_row_writes_header_only :
    combineSheets
        (some (GetRows.returned
          (Sheet.mk ["Name", "Pos", "Team"] [["LeBron James", "F", "LAL"]])))
        (some (GetRows.returned rosterSecondary))
        = Outcome.written "Name,Pos,Team,Proj"
      ∧ csvLines (newHeaders ["Name", "Pos", "Team"] rosterSecondary.headerValues)
          (newRows ["Name", "Pos", "Team"] rosterSecondary.headerValues
            [["LeBron James", "F", "LAL"]] rosterSecondary.rows)
        = ["Name,Pos,Team,Proj"] := by
  decide

/-- C6 fails on the code: the first line of the output is the header names
joined by commas as they are, without quotes; only the data lines are quoted. -/
theorem header_line_not_quoted :
    (csvLines (newHeaders rosterPrimary.headerValues rosterSecondary.headerValues)
        (newRows rosterPrimary.headerValues rosterSecondary.headerValues
          rosterPrimary.rows rosterSecondary.rows)).head?
        = some "Name,Pos,Team,Proj"
      ∧ csvRow (newHeaders rosterPrimary.headerValues rosterSecondary.headerValues)
        = "\"Name\",\"Pos\",\"Team\",\"Proj\""
      ∧ (csvLines (newHeaders rosterPrimary.headerValues rosterSecondary.headerValues)
        (newRows rosterPrimary.headerValues rosterSecondary.headerValues
          rosterPrimary.rows rosterSecondary.rows)).head?
        ≠ some (csvRow (newHeaders rosterPrimary.headerValues rosterSecondary.headerValues)) := by
  decide

/-- C7, as stated, fails: a raw primary row with one cell under a primary header
of three names is merged into a row of two cells, not of four. -/
theorem short_row_merged_length :
    (mergeRow emptyIndex ["Name", "Proj", "Team"]
        (addedHeaders ["Name", "Pos", "Team"] ["Name", "Proj", "Team"]) ["LeBron James"]).length
        = 2
      ∧ (mergeRow emptyIndex ["Name", "Proj", "Team"]
        (addedHeaders ["Name", "Pos", "Team"] ["Name", "Proj", "Team"]) ["LeBron James"]).length
        ≠ ["Name", "Pos", "Team"].length
          + (addedHeaders ["Name", "Pos", "Team"] ["Name", "Proj", "Team"]).length := by
  decide

/-- C7, amended: for every primary row, every index and every pair of headers,
the merged row has as many cells as the raw primary row plus one for each added
header, whether or not the key of the row is in the index; this is the length
of the primary header plus the number of added headers exactly when the raw row
has as many cells as the primary header. -/
theorem merged_row_length (m : Index) (cheatHeaders finalHeaders : List String) (cRow : Row) :
    (mergeRow m finalHeaders (addedHeaders cheatHeaders finalHeaders) cRow).length
        = cRow.length + (addedHeaders cheatHeaders finalHeaders).length
      ∧ ((mergeRow m finalHeaders (addedHeaders cheatHeaders finalHeaders) cRow).length
          = cheatHeaders.length + (addedHeaders cheatHeaders finalHeaders).length
        ↔ cRow.length = cheatHeaders.length) := by
  rw [length_mergeRow]
  exact ⟨rfl, by omega⟩

/-- C8: when the key of a primary row maps in the index to the secondary row
`f`, the merged row is the cells of the primary row followed, for each added
header in order, by the cell of `f` at the first position of that header in the
secondary header, the empty string standing for a cell that `f` does not have
or that is empty. -/
theorem merge_with_match (m : Index) (cheatHeaders finalHeaders : List String)
    (cRow f : Row) (h : m (cheatKey cRow) = some f) :
    mergeRow m finalHeaders (addedHeaders cheatHeaders finalHeaders) cRow
      = cRow ++ (addedHeaders cheatHeaders finalHeaders).map
          (fun name => f.getD (List.indexOf name finalHeaders) "") := by
  unfold mergeRow
  rw [h]
  simp only [Option.getD_some]
  congr 1
  apply List.map_congr_left
  intro name hname
  rw [indexOf_of_mem finalHeaders name ((mem_addedHeaders _ _ _).mp hname).1]
  rfl

/-- Witness of C8: the second row of the roster, matched in the index built from
the secondary sheet. -/
theorem merge_with_match_witness :
    finalMap rosterSecondary.rows (cheatKey ["Jayson Tatum", "F", "BOS"])
        = some ["Jayson Tatum", "30.1", "BOS"]
      ∧ mergeRow (finalMap rosterSecondary.rows) rosterSecondary.headerValues
          (addedHeaders rosterPrimary.headerValues rosterSecondary.headerValues)
          ["Jayson Tatum", "F", "BOS"]
        = ["Jayson Tatum", "F", "BOS"]
          ++ (addedHeaders rosterPrimary.headerValues rosterSecondary.headerValues).map
            (fun name => (["Jayson Tatum", "30.1", "BOS"] : Row).getD
              (List.indexOf name rosterSecondary.headerValues) "") :=
  ⟨by decide, merge_with_match (finalMap rosterSecondary.rows) rosterPrimary.headerValues
    rosterSecondary.headerValues ["Jayson Tatum", "F", "BOS"] ["Jayson Tatum", "30.1", "BOS"]
    (by decide)⟩

/-- C9: when the key of a primary row is not in the index, the merged row is
the cells of the primary row followed by one empty string for each added
header; the merge is a total function, so no error arises. -/
theorem merge_without_match (m : Index) (cheatHeaders finalHeaders : List String)
    (cRow : Row) (h : m (cheatKey cRow) = none) :
    mergeRow m finalHeaders (addedHeaders cheatHeaders finalHeaders) cRow
      = cRow ++ List.replicate (addedHeaders cheatHeaders finalHeaders).length "" := by
  unfold mergeRow
  rw [h]
  simp only [Option.getD_none, cellOrEmpty_replicate]
  congr 1
  exact List.eq_replicate_iff.mpr ⟨by simp, by simp⟩

/-- Witness of C9: the first row of the roster, whose key the index built from
the secondary sheet does not hold. -/
theorem merge_without_match_witness :
    finalMap rosterSecondary.rows (cheatKey ["LeBron James", "F", "LAL"]) = none
      ∧ mergeRow (finalMap rosterSecondary.rows) rosterSecondary.headerValues
          (addedHeaders rosterPrimary.headerValues rosterSecondary.headerValues)
          ["LeBron James", "F", "LAL"]
        = ["LeBron James", "F", "LAL"]
          ++ List.replicate
            (addedHeaders rosterPrimary.headerValues rosterSecondary.headerValues).length "" :=
  ⟨by decide, merge_without_match (finalMap rosterSecondary.rows) rosterPrimary.headerValues
    rosterSecondary.headerValues ["LeBron James", "F", "LAL"] (by decide)⟩

/-- C10: the merged header is the primary header followed by the names of the
secondary header, in its order, that do not occur in the primary header under
exact string equality; for `Name, Pos, Team` and `Name, Team, Proj` it is
`Name, Pos, Team, Proj`. -/
theorem merged_header_eq (P S : List String) :
    newHeaders P S = P ++ S.filter (fun name => decide (name ∉ P))
      ∧ newHeaders ["Name", "Pos", "Team"] ["Name", "Team", "Proj"]
        = ["Name", "Pos", "Team", "Proj"]
      ∧ newHeaders ["Name", "Pos", "Team"] ["name", "Team", "Proj"]
        = ["Name", "Pos", "Team", "name", "Proj"] := by
  refine ⟨?_, by decide, by decide⟩
  unfold newHeaders addedHeaders
  congr 1
  apply List.filter_congr
  intro name _
  have := includes_iff P name
  cases hi : includes P name <;> simp_all

/-! ## Keys: the two copies and the normalizer -/

theorem finalKey_eq_joinKey (row : Row) : finalKey row = joinKey row := rfl

theorem cheatKey_eq_joinKey (row : Row) : cheatKey row = joinKey row := rfl

theorem toNat_ofNat_of_lt (n : Nat) (h : n < 0xd800) : (Char.ofNat n).toNat = n := by
  have hv : n.isValidChar := Or.inl h
  unfold Char.ofNat
  rw [dif_pos hv]
  rfl

theorem eq_ofNat_iff (c : Char) (n : Nat) (h : n < 0xd800) : c = Char.ofNat n ↔ c.toNat = n := by
  constructor
  · intro e
    rw [e]
    exact toNat_ofNat_of_lt n h
  · intro e
    rw [← e, Char.ofNat_toNat]

theorem isLowerOrSpace_eq (c : Char) :
    isLowerOrSpace c = decide (('a' ≤ c ∧ c ≤ 'z') ∨ c = ' ') := by
  have h1 : ('a' ≤ c) ↔ 97 ≤ c.toNat := by
    rw [Char.le_def]
    exact Iff.rfl
  have h2 : (c ≤ 'z') ↔ c.toNat ≤ 122 := by
    rw [Char.le_def]
    exact Iff.rfl
  have h3 : c = ' ' ↔ c.toNat = 32 := eq_ofNat_iff c 32 (by decide)
  unfold isLowerOrSpace
  rw [Bool.eq_iff_iff]
  simp [h1, h2, h3]

theorem trim_eq (s : String) :
    trim s = String.mk ((s.data.dropWhile isWhiteSpace).rdropWhile isWhiteSpace) := rfl

theorem finalKey_eq_normalize (row : Row) :
    finalKey row = normalize (row.getD 0 "") (row.getD 2 "") := by
  have hf : isLowerOrSpace = fun c => decide (('a' ≤ c ∧ c ≤ 'z') ∨ c = ' ') :=
    funext isLowerOrSpace_eq
  have hr : (fun c : Char => if c.toNat = 96 then Char.ofNat 39 else c)
      = fun c => if c = Char.ofNat 96 then Char.ofNat 39 else c := by
    funext c
    by_cases hc : c.toNat = 96
    · rw [if_pos hc, if_pos ((eq_ofNat_iff c 96 (by decide)).mpr hc)]
    · rw [if_neg hc, if_neg (fun e => hc ((eq_ofNat_iff c 96 (by decide)).mp e))]
  unfold finalKey normalize
  simp only [trim_eq, replaceBackticks, stripNonLetters, toLowerCase, toUpperCase, hf, hr]

/-! ## Trimming -/

theorem dropWhile_rdropWhile_dropWhile {α : Type} (p : α → Bool) (l : List α) :
    ((l.dropWhile p).rdropWhile p).dropWhile p = (l.dropWhile p).rdropWhile p := by
  cases ha : l.dropWhile p with
  | nil => simp
  | cons x a =>
    have hne : l.dropWhile p ≠ [] := by simp [ha]
    have hx : p x = false := by
      have := List.head_dropWhile_not p l hne
      simpa [ha] using this
    rcases List.prefix_cons_iff.mp (List.rdropWhile_prefix p (l := x :: a)) with h | ⟨t, h, _⟩
    · rw [h]
      rfl
    · rw [h]
      exact List.dropWhile_cons_of_neg (by simp [hx])

theorem trim_trim (s : String) : trim (trim s) = trim s := by
  simp only [trim_eq]
  rw [dropWhile_rdropWhile_dropWhile, List.rdropWhile_idempotent]

theorem mem_trim_data (s : String) (c : Char) (h : c ∈ (trim s).data) : c ∈ s.data := by
  rw [trim_eq] at h
  exact (List.dropWhile_sublist _).subset
    ((List.rdropWhile_prefix isWhiteSpace _).sublist.subset h)

theorem head_trim_not_whiteSpace (s : String) (c : Char)
    (h : (trim s).data.head? = some c) : isWhiteSpace c = false := by
  have ht : ((trim s).data).dropWhile isWhiteSpace = (trim s).data := by
    simp only [trim_eq]
    exact dropWhile_rdropWhile_dropWhile _ _
  have := List.head?_dropWhile_not isWhiteSpace (trim s).data
  rw [ht, h] at this
  simpa using this

theorem getLast_trim_not_whiteSpace (s : String) (c : Char)
    (h : (trim s).data.getLast? = some c) : isWhiteSpace c = false := by
  rw [trim_eq] at h
  have hne : (s.data.dropWhile isWhiteSpace).rdropWhile isWhiteSpace ≠ [] := by
    intro e
    rw [e] at h
    simp at h
  have := List.rdropWhile_last_not isWhiteSpace (s.data.dropWhile isWhiteSpace) hne
  rw [List.getLast?_eq_getLast _ hne] at h
  have e : ((s.data.dropWhile isWhiteSpace).rdropWhile isWhiteSpace).getLast hne = c := by
    simpa using h
  rw [e] at this
  simpa using this

/-! ## The name half -/

theorem isLowerOrSpace_iff (c : Char) :
    isLowerOrSpace c = true ↔ (97 ≤ c.toNat ∧ c.toNat ≤ 122) ∨ c.toNat = 32 := by
  simp [isLowerOrSpace]

theorem toLowerCaseChar_of_isLowerOrSpace (c : Char) (h : isLowerOrSpace c = true) :
    toLowerCaseChar c = [c] := by
  rw [isLowerOrSpace_iff] at h
  unfold toLowerCaseChar
  rw [if_neg (by omega), if_neg (by omega), if_neg (by omega)]

theorem flatMap_toLowerCaseChar (l : List Char) (h : ∀ c ∈ l, isLowerOrSpace c = true) :
    l.flatMap toLowerCaseChar = l := by
  induction l with
  | nil => rfl
  | cons c l ih =>
    rw [List.flatMap_cons, toLowerCaseChar_of_isLowerOrSpace c (h c (List.mem_cons_self _ _)),
      ih (fun d hd => h d (List.mem_cons_of_mem _ hd))]
    rfl

theorem map_replace_of_isLowerOrSpace (l : List Char) (h : ∀ c ∈ l, isLowerOrSpace c = true) :
    l.map (fun c => if c.toNat = 96 then Char.ofNat 39 else c) = l := by
  induction l with
  | nil => rfl
  | cons c l ih =>
    have hc := (isLowerOrSpace_iff c).mp (h c (List.mem_cons_self _ _))
    rw [List.map_cons, ih (fun d hd => h d (List.mem_cons_of_mem _ hd)), if_neg (by omega)]

theorem replaceBackticks_stripNonLetters (s : String) :
    replaceBackticks (stripNonLetters s) = stripNonLetters s := by
  unfold replaceBackticks
  rw [map_replace_of_isLowerOrSpace]
  intro c hc
  exact (List.mem_filter.mp hc).2

theorem normName_eq (s : String) : normName s = trim (stripNonLetters (toLowerCase s)) := by
  unfold normName
  rw [replaceBackticks_stripNonLetters]

theorem isLowerOrSpace_of_mem_normName (s : String) (c : Char) (h : c ∈ (normName s).data) :
    isLowerOrSpace c = true := by
  rw [normName_eq] at h
  exact (List.mem_filter.mp (mem_trim_data _ c h)).2

theorem normName_normName (s : String) : normName (normName s) = normName s := by
  have hall : ∀ c ∈ (normName s).data, isLowerOrSpace c = true :=
    isLowerOrSpace_of_mem_normName s
  have h1 : toLowerCase (normName s) = normName s := by
    unfold toLowerCase
    rw [flatMap_toLowerCaseChar _ hall]
  have h2 : stripNonLetters (normName s) = normName s := by
    unfold stripNonLetters
    rw [List.filter_eq_self.mpr hall]
  have h3 : trim (normName s) = normName s := by
    unfold normName
    exact trim_trim _
  rw [normName_eq (normName s), h1, h2, h3]

/-! ## The team half -/

theorem isWhiteSpace_eq_false_of_range (c : Char) (h : 33 ≤ c.toNat ∧ c.toNat ≤ 122) :
    isWhiteSpace c = false := by
  unfold isWhiteSpace
  simp
  omega

theorem isWhiteSpace_eq_code (c : Char) : isWhiteSpace c = isWhiteSpaceCode c.toNat := rfl

theorem toNat_ofNat_of_valid (n : Nat) (h : n.isValidChar) : (Char.ofNat n).toNat = n := by
  unfold Char.ofNat
  rw [dif_pos h]
  rfl

theorem upperBlocks_ok : upperBlocks.all (fun b => b.2.all upperEntryOk) = true := by
  decide!

theorem mem_of_lookupCode (n : Nat) (codes : List Nat) :
    ∀ t : List (Nat × List Nat), lookupCode n t = some codes → (n, codes) ∈ t
  | [], h => by simp [lookupCode] at h
  | (k, v) :: rest, h => by
    unfold lookupCode at h
    by_cases hk : k = n
    · rw [if_pos hk] at h
      have hv : v = codes := by simpa using h
      rw [hk, hv]
      exact List.mem_cons_self _ _
    · rw [if_neg hk] at h
      exact List.mem_cons_of_mem _ (mem_of_lookupCode n codes rest h)

theorem lookupBlock_nil_or_mem (b : Nat) :
    ∀ blocks : List (Nat × List (Nat × List Nat)),
      lookupBlock b blocks = [] ∨ (b, lookupBlock b blocks) ∈ blocks
  | [] => Or.inl rfl
  | (k, entries) :: rest => by
    unfold lookupBlock
    by_cases hk : k = b
    · rw [if_pos hk, hk]
      exact Or.inr (List.mem_cons_self _ _)
    · rw [if_neg hk]
      rcases lookupBlock_nil_or_mem b rest with h | h
      · exact Or.inl h
      · exact Or.inr (List.mem_cons_of_mem _ h)

theorem upperEntryOk_of_upperCodes (n : Nat) (codes : List Nat)
    (h : upperCodes n = some codes) : upperEntryOk (n, codes) = true := by
  unfold upperCodes at h
  rcases lookupBlock_nil_or_mem (n / 64) upperBlocks with hb | hb
  · rw [hb] at h
    simp [lookupCode] at h
  · have hall := List.all_eq_true.mp upperBlocks_ok _ hb
    exact List.all_eq_true.mp hall _ (mem_of_lookupCode n codes _ h)

theorem upperOutputOk_facts (v : Nat) (h : upperOutputOk v = true) :
    ((65 ≤ v ∧ v ≤ 90) ∨ (128 ≤ v ∧ upperCodes v = none)) ∧ isWhiteSpaceCode v = false
      ∧ v.isValidChar := by
  unfold upperOutputOk at h
  simp only [Bool.and_eq_true, Bool.or_eq_true, decide_eq_true_eq, Bool.not_eq_true',
    Option.isNone_iff_eq_none] at h
  exact ⟨h.1.1, h.1.2, h.2⟩

theorem upperEntryOk_facts (n : Nat) (codes : List Nat) (h : upperEntryOk (n, codes) = true) :
    128 ≤ n ∧ isWhiteSpaceCode n = false ∧ codes ≠ []
      ∧ ∀ v ∈ codes, upperOutputOk v = true := by
  unfold upperEntryOk at h
  simp only [Bool.and_eq_true, decide_eq_true_eq, Bool.not_eq_true', List.all_eq_true,
    List.isEmpty_eq_false] at h
  exact ⟨h.1.1.1, h.1.1.2, h.1.2, h.2⟩

theorem toUpperCaseChar_ofNat_output (v : Nat) (h : upperOutputOk v = true) :
    isWhiteSpace (Char.ofNat v) = false ∧ toUpperCaseChar (Char.ofNat v) = [Char.ofNat v] := by
  obtain ⟨hr, hw, hv⟩ := upperOutputOk_facts v h
  have hn := toNat_ofNat_of_valid v hv
  constructor
  · rw [isWhiteSpace_eq_code, hn]
    exact hw
  · unfold toUpperCaseChar
    rw [hn]
    rcases hr with hr | hr
    · rw [if_neg (by omega), if_pos (by omega)]
    · rw [if_neg (by omega), if_neg (by omega), hr.2]

theorem toUpperCaseChar_cases (c : Char) :
    toUpperCaseChar c = [c]
      ∨ (isWhiteSpace c = false ∧ toUpperCaseChar c ≠ []
        ∧ ∀ d ∈ toUpperCaseChar c, isWhiteSpace d = false ∧ toUpperCaseChar d = [d]) := by
  by_cases h1 : 97 ≤ c.toNat ∧ c.toNat ≤ 122
  · right
    have hc : toUpperCaseChar c = [Char.ofNat (c.toNat - 32)] := by
      unfold toUpperCaseChar
      rw [if_pos h1]
    have hn : (Char.ofNat (c.toNat - 32)).toNat = c.toNat - 32 :=
      toNat_ofNat_of_lt _ (by omega)
    refine ⟨isWhiteSpace_eq_false_of_range c (by omega), by rw [hc]; simp, ?_⟩
    intro d hd
    rw [hc] at hd
    have hd2 : d = Char.ofNat (c.toNat - 32) := by simpa using hd
    rw [hd2]
    refine ⟨isWhiteSpace_eq_false_of_range _ (by omega), ?_⟩
    unfold toUpperCaseChar
    rw [hn, if_neg (by omega), if_pos (by omega)]
  · by_cases h2 : c.toNat < 128
    · left
      unfold toUpperCaseChar
      rw [if_neg h1, if_pos h2]
    · cases hu : upperCodes c.toNat with
      | none =>
        left
        unfold toUpperCaseChar
        rw [if_neg h1, if_neg h2, hu]
      | some codes =>
        right
        have hc : toUpperCaseChar c = codes.map Char.ofNat := by
          unfold toUpperCaseChar
          rw [if_neg h1, if_neg h2, hu]
        obtain ⟨_, hw, hne, hall⟩ :=
          upperEntryOk_facts _ _ (upperEntryOk_of_upperCodes _ _ hu)
        refine ⟨by rw [isWhiteSpace_eq_code]; exact hw, by rw [hc]; simpa using hne, ?_⟩
        intro d hd
        rw [hc] at hd
        obtain ⟨v, hv, hvd⟩ := List.mem_map.mp hd
        rw [← hvd]
        exact toUpperCaseChar_ofNat_output v (hall v hv)

theorem flatMap_eq_self {α : Type} (f : α → List α) (m : List α) (h : ∀ d ∈ m, f d = [d]) :
    m.flatMap f = m := by
  induction m with
  | nil => rfl
  | cons d m ih =>
    rw [List.flatMap_cons, h d (List.mem_cons_self _ _),
      ih (fun e he => h e (List.mem_cons_of_mem _ he))]
    rfl

theorem flatMap_flatMap_self {α : Type} (f : α → List α) (hf : ∀ c, ∀ d ∈ f c, f d = [d])
    (l : List α) : (l.flatMap f).flatMap f = l.flatMap f := by
  induction l with
  | nil => rfl
  | cons c l ih =>
    rw [List.flatMap_cons, List.flatMap_append, ih, flatMap_eq_self f (f c) (hf c)]

theorem dropWhile_flatMap {α : Type} (p : α → Bool) (f : α → List α)
    (hf : ∀ c, f c = [c] ∨ (p c = false ∧ f c ≠ [] ∧ ∀ d ∈ f c, p d = false)) (l : List α) :
    (l.flatMap f).dropWhile p = (l.dropWhile p).flatMap f := by
  induction l with
  | nil => rfl
  | cons c l ih =>
    rw [List.flatMap_cons]
    by_cases hp : p c = true
    · have hc : f c = [c] := by
        rcases hf c with h | h
        · exact h
        · rw [h.1] at hp
          exact Bool.noConfusion hp
      rw [hc, List.dropWhile_cons_of_pos hp, List.singleton_append,
        List.dropWhile_cons_of_pos hp, ih]
    · rw [List.dropWhile_cons_of_neg hp, List.flatMap_cons]
      rcases hf c with h | h
      · rw [h, List.singleton_append, List.dropWhile_cons_of_neg hp]
      · obtain ⟨_, hne, hall⟩ := h
        cases hfc : f c with
        | nil => exact absurd hfc hne
        | cons d ds =>
          have hd : p d = false := hall d (by rw [hfc]; exact List.mem_cons_self _ _)
          rw [List.cons_append, List.dropWhile_cons_of_neg (by simp [hd])]

theorem rdropWhile_flatMap {α : Type} (p : α → Bool) (f : α → List α)
    (hf : ∀ c, f c = [c] ∨ (p c = false ∧ f c ≠ [] ∧ ∀ d ∈ f c, p d = false)) (l : List α) :
    (l.flatMap f).rdropWhile p = (l.rdropWhile p).flatMap f := by
  induction l using List.reverseRecOn with
  | nil => simp
  | append_singleton l c ih =>
    rw [List.flatMap_append, List.flatMap_singleton]
    by_cases hp : p c = true
    · have hc : f c = [c] := by
        rcases hf c with h | h
        · exact h
        · rw [h.1] at hp
          exact Bool.noConfusion hp
      rw [hc, List.rdropWhile_concat_pos _ _ _ hp, List.rdropWhile_concat_pos _ _ _ hp, ih]
    · rw [List.rdropWhile_concat_neg _ _ _ hp, List.flatMap_append, List.flatMap_singleton]
      rcases hf c with h | h
      · rw [h, List.rdropWhile_concat_neg _ _ _ hp]
      · obtain ⟨_, hne, hall⟩ := h
        have hlast : p ((f c).getLast hne) = false := hall _ (List.getLast_mem hne)
        rw [← List.dropLast_append_getLast hne, ← List.append_assoc,
          List.rdropWhile_concat_neg _ _ _ (by simp [hlast])]

theorem toUpperCaseChar_fixed (c : Char) : ∀ d ∈ toUpperCaseChar c, toUpperCaseChar d = [d] := by
  intro d hd
  rcases toUpperCaseChar_cases c with h | h
  · rw [h] at hd
    have hdc : d = c := by simpa using hd
    rw [hdc, h]
  · exact (h.2.2 d hd).2

theorem toUpperCaseChar_whiteSpace (c : Char) :
    toUpperCaseChar c = [c]
      ∨ (isWhiteSpace c = false ∧ toUpperCaseChar c ≠ []
        ∧ ∀ d ∈ toUpperCaseChar c, isWhiteSpace d = false) := by
  rcases toUpperCaseChar_cases c with h | h
  · exact Or.inl h
  · exact Or.inr ⟨h.1, h.2.1, fun d hd => (h.2.2 d hd).1⟩

theorem toUpperCase_toUpperCase (s : String) : toUpperCase (toUpperCase s) = toUpperCase s := by
  unfold toUpperCase
  simp only [flatMap_flatMap_self toUpperCaseChar toUpperCaseChar_fixed]

theorem toUpperCase_trim (s : String) : toUpperCase (trim s) = trim (toUpperCase s) := by
  unfold toUpperCase
  simp only [trim_eq]
  rw [dropWhile_flatMap isWhiteSpace toUpperCaseChar toUpperCaseChar_whiteSpace,
    rdropWhile_flatMap isWhiteSpace toUpperCaseChar toUpperCaseChar_whiteSpace]

theorem normTeam_normTeam (s : String) : normTeam (normTeam s) = normTeam s := by
  unfold normTeam
  rw [toUpperCase_trim, toUpperCase_toUpperCase, trim_trim]

/-! ## The separator -/

theorem append_sep_inj {α : Type} (sep : α) :
    ∀ (a b x y : List α), sep ∉ a → sep ∉ b → a ++ sep :: x = b ++ sep :: y → a = b ∧ x = y
  | [], [], x, y, _, _, h => by
    simp at h
    exact ⟨rfl, h⟩
  | [], c :: b, x, y, _, hb, h => by
    simp at h
    exact absurd (h.1 ▸ List.mem_cons_self _ _) hb
  | c :: a, [], x, y, ha, _, h => by
    simp at h
    exact absurd (h.1 ▸ List.mem_cons_self _ _) ha
  | c :: a, d :: b, x, y, ha, hb, h => by
    simp at h
    have ih := append_sep_inj sep a b x y (fun m => ha (List.mem_cons_of_mem _ m))
      (fun m => hb (List.mem_cons_of_mem _ m)) h.2
    exact ⟨by rw [h.1, ih.1], ih.2⟩

theorem bar_not_mem_normName (s : String) : Char.ofNat 124 ∉ (normName s).data := by
  intro h
  have := (isLowerOrSpace_iff _).mp (isLowerOrSpace_of_mem_normName s _ h)
  rw [toNat_ofNat_of_lt 124 (by decide)] at this
  omega

theorem key_eq_iff (n1 t1 n2 t2 : String) :
    normName n1 ++ "|" ++ normTeam t1 = normName n2 ++ "|" ++ normTeam t2
      ↔ normName n1 = normName n2 ∧ normTeam t1 = normTeam t2 := by
  constructor
  · intro h
    have hd := congrArg String.data h
    simp only [String.data_append, List.append_assoc] at hd
    simp only [List.singleton_append] at hd
    have := append_sep_inj (Char.ofNat 124) _ _ _ _ (bar_not_mem_normName n1)
      (bar_not_mem_normName n2) hd
    exact ⟨String.ext this.1, String.ext this.2⟩
  · rintro ⟨h1, h2⟩
    rw [h1, h2]

/-! ## The lookup map -/

theorem foldl_indexRow_of_not_mem (rows : List Row) (m : Index) (k : String)
    (h : ∀ x ∈ rows, finalKey x ≠ k) : rows.foldl indexRow m k = m k := by
  induction rows generalizing m with
  | nil => rfl
  | cons r rows ih =>
    rw [List.foldl_cons, ih _ (fun x hx => h x (List.mem_cons_of_mem _ hx))]
    have hr : k ≠ finalKey r := fun e => h r (List.mem_cons_self _ _) e.symm
    simp [indexRow, setKey, hr]

theorem foldl_indexRow_last (before after : List Row) (r : Row) (m : Index)
    (h : ∀ x ∈ after, finalKey x ≠ finalKey r) :
    (before ++ r :: after).foldl indexRow m (finalKey r) = some r := by
  rw [List.foldl_append, List.foldl_cons, foldl_indexRow_of_not_mem after _ _ h]
  simp [indexRow, setKey]

theorem foldl_indexRow_found (rows : List Row) (m : Index) (k : String)
    (h : (∃ g, m k = some g ∧ finalKey g = k) ∨ ∃ f ∈ rows, finalKey f = k) :
    ∃ g, rows.foldl indexRow m k = some g ∧ finalKey g = k := by
  induction rows generalizing m with
  | nil =>
    rcases h with h | ⟨f, hf, _⟩
    · exact h
    · simp at hf
  | cons r rows ih =>
    rw [List.foldl_cons]
    apply ih
    by_cases hr : finalKey r = k
    · left
      exact ⟨r, by simp [indexRow, setKey, hr], hr⟩
    · rcases h with ⟨g, hg, hk⟩ | ⟨f, hf, hk⟩
      · left
        have hne : k ≠ finalKey r := fun e => hr e.symm
        exact ⟨g, by simp [indexRow, setKey, hne, hg], hk⟩
      · rcases List.mem_cons.mp hf with e | hf2
        · exact absurd (e ▸ hk) hr
        · right
          exact ⟨f, hf2, hk⟩

/-! ## Reading a line back -/

theorem readFields_quoted_doubled (cs : List Char) :
    ∀ (cur : List Char) (acc : List String) (rest : List Char),
      readFields .quoted cur acc
          (cs.flatMap (fun c => if c.toNat = 34 then [c, c] else [c]) ++ rest)
        = readFields .quoted (cur ++ cs) acc rest := by
  induction cs with
  | nil =>
    intro cur acc rest
    simp
  | cons c cs ih =>
    intro cur acc rest
    rw [List.flatMap_cons]
    by_cases hc : c.toNat = 34
    · rw [if_pos hc]
      simp only [List.cons_append, List.nil_append]
      rw [readFields, if_pos hc, readFields, if_pos hc, ih]
      simp
    · rw [if_neg hc]
      simp only [List.cons_append, List.nil_append]
      rw [readFields, if_neg hc, ih]
      simp

theorem csvField_data (v : String) :
    (csvField v).data
      = Char.ofNat 34
        :: (v.data.flatMap (fun c => if c.toNat = 34 then [c, c] else [c]) ++ [Char.ofNat 34]) := by
  unfold csvField doubleQuotes
  simp only [String.data_append]
  rfl

theorem readFields_csvField_end (v : String) (cur : List Char) (acc : List String) :
    readFields .fieldStart cur acc (csvField v).data = some (acc ++ [v]) := by
  rw [csvField_data, readFields, if_pos (by decide), readFields_quoted_doubled, readFields,
    if_pos (by decide), readFields]
  rfl

theorem readFields_csvField_comma (v : String) (cur : List Char) (acc : List String)
    (more : List Char) :
    readFields .fieldStart cur acc ((csvField v).data ++ Char.ofNat 44 :: more)
      = readFields .fieldStart [] (acc ++ [v]) more := by
  rw [csvField_data]
  simp only [List.cons_append, List.nil_append, List.append_assoc]
  rw [readFields, if_pos (by decide), readFields_quoted_doubled, readFields, if_pos (by decide),
    readFields, if_neg (by decide), if_pos (by decide)]
  rfl

theorem readFields_csvRow (row : Row) (hne : row ≠ []) :
    ∀ (cur : List Char) (acc : List String),
      readFields .fieldStart cur acc (csvRow row).data = some (acc ++ row) := by
  induction row with
  | nil => exact absurd rfl hne
  | cons v rest ih =>
    intro cur acc
    cases rest with
    | nil => exact readFields_csvField_end v cur acc
    | cons w rest =>
      have hstep : (csvRow (v :: w :: rest)).data
          = (csvField v).data ++ Char.ofNat 44 :: (csvRow (w :: rest)).data := by
        unfold csvRow
        simp only [List.map_cons, join, String.data_append, List.append_assoc]
        rfl
      rw [hstep, readFields_csvField_comma, ih (by simp) [] (acc ++ [v])]
      simp

theorem join_eq_intercalate (sep : String) (xs : List String) :
    join sep xs = String.intercalate sep xs := by
  have hgo : ∀ (ys : List String) (acc x : String),
      String.intercalate.go acc sep (x :: ys) = acc ++ sep ++ join sep (x :: ys) := by
    intro ys
    induction ys with
    | nil =>
      intro acc x
      rfl
    | cons y ys ih =>
      intro acc x
      show String.intercalate.go (acc ++ sep ++ x) sep (y :: ys) = _
      rw [ih]
      simp only [join, String.append_assoc]
  cases xs with
  | nil => rfl
  | cons x xs =>
    cases xs with
    | nil => rfl
    | cons y ys =>
      show x ++ sep ++ join sep (y :: ys) = String.intercalate.go x sep (y :: ys)
      rw [hgo]

/-! ## The claims on keys, the index, the CSV line and the header -/

/-- C11: for every name and team, the key computed for a row, in either loop,
is the name lower-cased, stripped of every character outside a-z and space,
with backticks replaced by apostrophes, and trimmed, then the separator, then
the team upper-cased and trimmed: the Row Normalizer of the specification.  The
name `LeBron James` and the team `lal ` give `lebron james|LAL`. -/
theorem key_is_normalizer (name mid team : String) (row : Row) :
    finalKey [name, mid, team] = normalize name team
      ∧ cheatKey [name, mid, team] = normalize name team
      ∧ finalKey row = normalize (row.getD 0 "") (row.getD 2 "")
      ∧ cheatKey row = normalize (row.getD 0 "") (row.getD 2 "")
      ∧ normalize "LeBron James" "lal " = "lebron james|LAL"
      ∧ finalKey ["LeBron James", "F", "lal "] = "lebron james|LAL" := by
  refine ⟨finalKey_eq_normalize [name, mid, team], finalKey_eq_normalize [name, mid, team],
    finalKey_eq_normalize row, finalKey_eq_normalize row, by decide, by decide⟩

/-- C12: for every non-empty data row, the emitted line is the cells, each
between double quotes with its double quotes doubled, joined by commas, and the
standard CSV reader recovers exactly the cells from that line; the cell
`a"b,c` is emitted as `"a""b,c"` and read back as `a"b,c`. -/
theorem csv_line_round_trip (row : Row) (h : row ≠ []) :
    csvRow row
        = String.intercalate "," (row.map (fun v => "\"" ++ doubleQuotes v ++ "\""))
      ∧ readCsvLine (csvRow row) = some row
      ∧ csvRow ["a\"b,c"] = "\"a\"\"b,c\""
      ∧ readCsvLine "\"a\"\"b,c\"" = some ["a\"b,c"] := by
  refine ⟨?_, ?_, by decide, by decide⟩
  · unfold csvRow
    rw [join_eq_intercalate]
    rfl
  · unfold readCsvLine
    rw [readFields_csvRow row h]
    rfl

/-- Witness of C12: a row of two cells, the first with a double quote and a
comma in it. -/
theorem csv_line_round_trip_witness :
    (["a\"b,c", "LAL"] : Row) ≠ []
      ∧ readCsvLine (csvRow ["a\"b,c", "LAL"]) = some ["a\"b,c", "LAL"] :=
  ⟨by decide, (csv_line_round_trip ["a\"b,c", "LAL"] (by decide)).2.1⟩

/-- C13: when a loaded secondary row `r` has the key of an earlier loaded row
and no later row has that key, the index maps the key to `r`, the last such row
in table order; the index is a total function of the rows, so building it
raises no error. -/
theorem duplicate_key_last_row_wins (before after : List Row) (r : Row)
    (hdup : ∃ r0 ∈ before, finalKey r0 = finalKey r)
    (hlast : ∀ x ∈ after, finalKey x ≠ finalKey r) :
    finalMap (before ++ r :: after) (finalKey r) = some r := by
  obtain ⟨r0, hr0, _⟩ := hdup
  cases before with
  | nil => simp at hr0
  | cons b before =>
    unfold finalMap
    show (before ++ r :: after).foldl indexRow emptyIndex (finalKey r) = some r
    exact foldl_indexRow_last before after r emptyIndex hlast

/-- Witness of C13: two rows for Jayson Tatum, the later one indexed. -/
theorem duplicate_key_last_row_wins_witness :
    (∃ r0 ∈ ([["LeBron James", "27.3", "LAL"], ["Jayson Tatum", "30.1", "BOS"]] : List Row),
        finalKey r0 = finalKey ["jayson tatum", "31.5", "bos"])
      ∧ (∀ x ∈ ([["Luka Doncic", "33.0", "LAL"]] : List Row),
        finalKey x ≠ finalKey ["jayson tatum", "31.5", "bos"])
      ∧ finalMap
          ([["LeBron James", "27.3", "LAL"], ["Jayson Tatum", "30.1", "BOS"]]
            ++ ["jayson tatum", "31.5", "bos"] :: [["Luka Doncic", "33.0", "LAL"]])
          (finalKey ["jayson tatum", "31.5", "bos"])
        = some ["jayson tatum", "31.5", "bos"] :=
  ⟨by decide, by decide,
    duplicate_key_last_row_wins
      [["LeBron James", "27.3", "LAL"], ["Jayson Tatum", "30.1", "BOS"]]
      [["Luka Doncic", "33.0", "LAL"]] ["jayson tatum", "31.5", "bos"]
      (by decide) (by decide)⟩

/-- C14: normalisation is idempotent: the name transform applied to a name
half gives that name half, the team transform applied to a team half gives that
team half, and so the key of the normalised components is the key itself; this
holds also for a team outside ASCII, as the team `stra\u00dfe `, whose team half
is `STRASSE`. -/
theorem normalisation_idempotent (name mid team : String) :
    normName (normName name) = normName name
      ∧ normTeam (normTeam team) = normTeam team
      ∧ finalKey [normName name, mid, normTeam team] = finalKey [name, mid, team]
      ∧ cheatKey [normName name, mid, normTeam team] = cheatKey [name, mid, team]
      ∧ normTeam "stra\u00dfe " = "STRASSE"
      ∧ normTeam (normTeam "stra\u00dfe ") = "STRASSE" := by
  have hk : finalKey [normName name, mid, normTeam team] = finalKey [name, mid, team] := by
    show normName (normName name) ++ "|" ++ normTeam (normTeam team)
      = normName name ++ "|" ++ normTeam team
    rw [normName_normName, normTeam_normTeam]
  exact ⟨normName_normName name, normTeam_normTeam team, hk, hk, by decide, by decide⟩

/-- C15: the key of a primary row and the key of a secondary row are the same
function of the row; hence a primary row whose cells 0 and 2 normalise to the
name and team of a secondary row that the index loop visited has that row's
key, and its lookup finds a secondary row with that key. -/
theorem key_same_for_both_tables (finalData : List Row) (cRow f : Row)
    (hf : f ∈ finalData.drop 1)
    (hname : normName (cRow.getD 0 "") = normName (f.getD 0 ""))
    (hteam : normTeam (cRow.getD 2 "") = normTeam (f.getD 2 "")) :
    cheatKey = finalKey
      ∧ cheatKey cRow = finalKey f
      ∧ ∃ g, finalMap finalData (cheatKey cRow) = some g ∧ finalKey g = cheatKey cRow := by
  have hkey : cheatKey cRow = finalKey f := by
    show normName (cRow.getD 0 "") ++ "|" ++ normTeam (cRow.getD 2 "")
      = normName (f.getD 0 "") ++ "|" ++ normTeam (f.getD 2 "")
    rw [hname, hteam]
  refine ⟨rfl, hkey, ?_⟩
  unfold finalMap
  exact foldl_indexRow_found (finalData.drop 1) emptyIndex (cheatKey cRow)
    (Or.inr ⟨f, hf, hkey.symm⟩)

/-- Witness of C15: a primary row for Jayson Tatum, written in another case and
with spaces around the team, against the roster's secondary sheet. -/
theorem key_same_for_both_tables_witness :
    (["Jayson Tatum", "30.1", "BOS"] : Row) ∈ rosterSecondary.rows.drop 1
      ∧ ∃ g, finalMap rosterSecondary.rows (cheatKey ["JAYSON TATUM!", "F", " bos "]) = some g
        ∧ finalKey g = cheatKey ["JAYSON TATUM!", "F", " bos "] :=
  ⟨by decide,
    (key_same_for_both_tables rosterSecondary.rows ["JAYSON TATUM!", "F", " bos "]
      ["Jayson Tatum", "30.1", "BOS"] (by decide) (by decide) (by decide)).2.2⟩

/-- C16: the key computation is total: for every row, in either loop, the key
is the name half of cell 0, the separator and the team half of cell 2, an
absent cell counting as the empty string; the empty row and a row whose cells
0 and 2 are empty or absent get the key `|`. -/
theorem key_total (row : Row) (name mid : String) :
    finalKey row = normName ((row[0]?).getD "") ++ "|" ++ normTeam ((row[2]?).getD "")
      ∧ cheatKey row = normName ((row[0]?).getD "") ++ "|" ++ normTeam ((row[2]?).getD "")
      ∧ finalKey [] = "|" ∧ cheatKey [] = "|"
      ∧ finalKey [name] = normName name ++ "|" ∧ cheatKey [name] = normName name ++ "|"
      ∧ finalKey [name, mid] = normName name ++ "|"
      ∧ cheatKey [name, mid] = normName name ++ "|"
      ∧ finalKey ["", mid, ""] = "|" ∧ cheatKey ["", mid, ""] = "|"
      ∧ finalKey ["", mid] = "|" ∧ cheatKey ["", mid] = "|" := by
  have hrow : finalKey row
      = normName ((row[0]?).getD "") ++ "|" ++ normTeam ((row[2]?).getD "") := by
    show normName (row.getD 0 "") ++ "|" ++ normTeam (row.getD 2 "") = _
    rw [List.getD_eq_getElem?_getD, List.getD_eq_getElem?_getD]
  have h1 : finalKey [name] = normName name ++ "|" := by
    show normName name ++ "|" ++ normTeam "" = _
    have : normTeam "" = "" := by decide
    rw [this, String.append_empty]
  have h0 : finalKey ["", mid, ""] = "|" := by
    show normName "" ++ "|" ++ normTeam "" = "|"
    decide
  refine ⟨hrow, hrow, by decide, by decide, h1, h1, h1, h1, h0, h0, h0, h0⟩

/-- C17: the name half of a key holds only the characters a-z and space and
neither begins nor ends with a space; it holds no backtick and no apostrophe,
and the key computation of either loop equals the computation with the
backtick replacement left out. -/
theorem name_half_letters_and_spaces (name : String) (row : Row) :
    (∀ c ∈ (normName name).data, (97 ≤ c.toNat ∧ c.toNat ≤ 122) ∨ c.toNat = 32)
      ∧ (normName name).data.head? ≠ some (Char.ofNat 32)
      ∧ (normName name).data.getLast? ≠ some (Char.ofNat 32)
      ∧ Char.ofNat 96 ∉ (normName name).data
      ∧ Char.ofNat 39 ∉ (normName name).data
      ∧ finalKey row = finalKeyWithoutReplace row
      ∧ cheatKey row = finalKeyWithoutReplace row := by
  have hall : ∀ c ∈ (normName name).data, (97 ≤ c.toNat ∧ c.toNat ≤ 122) ∨ c.toNat = 32 :=
    fun c hc => (isLowerOrSpace_iff c).mp (isLowerOrSpace_of_mem_normName name c hc)
  have hspace : isWhiteSpace (Char.ofNat 32) = true := by decide
  have hkey : finalKey row = finalKeyWithoutReplace row := by
    show normName (row.getD 0 "") ++ "|" ++ normTeam (row.getD 2 "")
      = trim (stripNonLetters (toLowerCase (row.getD 0 ""))) ++ "|" ++ normTeam (row.getD 2 "")
    rw [normName_eq]
  refine ⟨hall, ?_, ?_, ?_, ?_, hkey, hkey⟩
  · intro h
    have := head_trim_not_whiteSpace _ _ h
    rw [hspace] at this
    exact Bool.noConfusion this
  · intro h
    have := getLast_trim_not_whiteSpace _ _ h
    rw [hspace] at this
    exact Bool.noConfusion this
  · intro h
    have := hall _ h
    rw [toNat_ofNat_of_lt 96 (by decide)] at this
    omega
  · intro h
    have := hall _ h
    rw [toNat_ofNat_of_lt 39 (by decide)] at this
    omega

/-- C18: the keys of two rows are equal if and only if their name halves are
equal and their team halves are equal, whichever loop computes each key; the
name half never holds the separator, while a team half may: the team `|b`
under the name `a` gives `a||B`, which differs from the key `a|B` of the name
`a|` with the team `b`. -/
theorem key_equal_iff_halves_equal (n1 mid1 t1 n2 mid2 t2 : String) (r1 r2 : Row) :
    (finalKey [n1, mid1, t1] = finalKey [n2, mid2, t2]
        ↔ normName n1 = normName n2 ∧ normTeam t1 = normTeam t2)
      ∧ (cheatKey r1 = finalKey r2
        ↔ normName (r1.getD 0 "") = normName (r2.getD 0 "")
          ∧ normTeam (r1.getD 2 "") = normTeam (r2.getD 2 ""))
      ∧ Char.ofNat 124 ∉ (normName n1).data
      ∧ finalKey ["a", "", "|b"] = "a||B"
      ∧ finalKey ["a|", "", "b"] = "a|B"
      ∧ normTeam "|b" = "|B" :=
  ⟨key_eq_iff n1 t1 n2 t2, key_eq_iff _ _ _ _, bar_not_mem_normName n1,
    by decide, by decide, by decide⟩

/-- C19: every name of the secondary header occurs in the merged header, no
added header name occurs in the primary header, and when neither header has a
duplicate name the merged header has none. -/
theorem merged_header_invariants (P S : List String) :
    (∀ name ∈ S, name ∈ newHeaders P S)
      ∧ (∀ name ∈ addedHeaders P S, name ∉ P)
      ∧ (P.Nodup → S.Nodup → (newHeaders P S).Nodup) := by
  refine ⟨?_, ?_, ?_⟩
  · intro name hname
    unfold newHeaders
    by_cases hP : name ∈ P
    · exact List.mem_append_left _ hP
    · exact List.mem_append_right _ ((mem_addedHeaders P S name).mpr ⟨hname, hP⟩)
  · intro name hname
    exact ((mem_addedHeaders P S name).mp hname).2
  · intro hP hS
    unfold newHeaders
    refine List.nodup_append.mpr ⟨hP, ?_, ?_⟩
    · unfold addedHeaders
      exact hS.filter _
    · intro name h1 h2
      exact ((mem_addedHeaders P S name).mp h2).2 h1

/-- Witness of C19: the headers `Name, Pos, Team` and `Name, Team, Proj`, both
free of duplicates. -/
theorem merged_header_invariants_witness :
    (["Name", "Pos", "Team"] : List String).Nodup
      ∧ (["Name", "Team", "Proj"] : List String).Nodup
      ∧ (newHeaders ["Name", "Pos", "Team"] ["Name", "Team", "Proj"]).Nodup :=
  ⟨by decide, by decide,
    (merged_header_invariants ["Name", "Pos", "Team"] ["Name", "Team", "Proj"]).2.2
      (by decide) (by decide)⟩

end CombineSheets
